import Mathlib

set_option linter.unusedVariables false

/-!
Verification development for the JHipster entity generator
(`src/generators/entity/index.js`): a shallow embedding of the
metadata-derivation core (entity validation, field normalization,
relationship resolution, descriptor assembly) together with theorems
settling the specification claims.

External collaborators of the source file (the lodash string library, the
npm pluralize library, the reserved-keywords module, and generator-base
helpers such as getTableName/getColumnName) are not part of the source
tree; they are modelled from the specification (spec.md section 4.1 and
section 3) and every such definition carries a doc comment saying so.
All code translated from `src/generators/entity/index.js` cites the line
numbers it embeds.
-/

namespace JhipsterEntity

/-! ### ASCII character helpers (basis of the spec-modelled Naming Deriver) -/

/-- ASCII uppercase test: the character code is between 65 and 90. -/
def isUpperCh (c : Char) : Bool := decide (65 ≤ c.toNat ∧ c.toNat ≤ 90)

/-- ASCII lowercase test: the character code is between 97 and 122. -/
def isLowerCh (c : Char) : Bool := decide (97 ≤ c.toNat ∧ c.toNat ≤ 122)

/-- ASCII digit test. -/
def isDigitCh (c : Char) : Bool := decide (48 ≤ c.toNat ∧ c.toNat ≤ 57)

/-- ASCII uppercase conversion on a single character. -/
def upChar (c : Char) : Char :=
  if 97 ≤ c.toNat ∧ c.toNat ≤ 122 then Char.ofNat (c.toNat - 32) else c

/-- ASCII lowercase conversion on a single character. -/
def lowChar (c : Char) : Char :=
  if 65 ≤ c.toNat ∧ c.toNat ≤ 90 then Char.ofNat (c.toNat + 32) else c

/-- Modelled from the spec: lodash `_.upperFirst` (spec section 4.1,
`capitalize`), an external library of the source: uppercase the first
character, leave the rest unchanged. -/
def upperFirst (s : String) : String :=
  match s.data with
  | [] => s
  | c :: cs => String.mk (upChar c :: cs)

/-- Modelled from the spec: lodash `_.lowerFirst` (spec section 4.1),
an external library of the source: lowercase the first character. -/
def lowerFirst (s : String) : String :=
  match s.data with
  | [] => s
  | c :: cs => String.mk (lowChar c :: cs)

/-- Lowercase an entire ASCII string. -/
def asciiLowerStr (s : String) : String := String.mk (s.data.map lowChar)

/-! ### Spec-modelled Naming Deriver (spec section 4.1)

The source delegates naming to the lodash and pluralize npm libraries,
which are external collaborators and not part of this source tree.  Per
the instructions of spec section 4.1 they are pure, deterministic,
locale-independent string transforms; `pluralize` delegates to a standard
pluralization algorithm (irregular table plus suffix rules, with the
original capitalization of the first letter restored on the result). -/

/-- Modelled from the spec: the irregular-plural table of the external
pluralization algorithm (spec section 4.1: `pluralize` must handle
irregular English plurals consistently). -/
def irregularPlurals : List (String × String) :=
  [("person", "people"), ("child", "children"), ("man", "men"),
   ("woman", "women"), ("foot", "feet"), ("tooth", "teeth"),
   ("goose", "geese"), ("mouse", "mice"), ("criterion", "criteria")]

/-- Suffix test on strings, computed on the underlying character lists. -/
def endsWithStr (s t : String) : Bool := t.data.isSuffixOf s.data

/-- Modelled from the spec: the suffix rules of the external
pluralization algorithm, applied to a word whose first letter has been
lowercased (a word already ending in `s` is treated as already plural). -/
def pluralizeRules (w : String) : String :=
  match (irregularPlurals.lookup w) with
  | some p => p
  | none =>
    if endsWithStr w "s" then w
    else if endsWithStr w "x" || endsWithStr w "z" || endsWithStr w "ch" || endsWithStr w "sh" then
      w ++ "es"
    else if endsWithStr w "ay" || endsWithStr w "ey" || endsWithStr w "iy" || endsWithStr w "oy" || endsWithStr w "uy" then
      w ++ "s"
    else if endsWithStr w "y" then String.mk (w.data.dropLast) ++ "ies"
    else w ++ "s"

/-- Modelled from the spec: the external npm `pluralize` library (spec
section 4.1): rules are looked up with the first letter lowercased, and
the capitalization of the original first letter is restored on the
result. -/
def pluralize (s : String) : String :=
  match s.data with
  | [] => s
  | c :: cs =>
    let core := pluralizeRules (String.mk (lowChar c :: cs))
    if isUpperCh c then upperFirst core else core

/-- Modelled from the spec: lodash `_.snakeCase` (spec section 4.1), an
external library of the source: insert an underscore before each ASCII
uppercase letter, lowercase everything. -/
def snakeCaseModel (s : String) : String :=
  match s.data.flatMap (fun c => if isUpperCh c then ['_', lowChar c] else [c]) with
  | '_' :: rest => String.mk rest
  | l => String.mk l

/-- Modelled from the spec: lodash `_.startCase` (spec section 4.1,
`humanize`), an external library of the source: insert a space before
each ASCII uppercase letter and capitalize the first letter. -/
def startCaseModel (s : String) : String :=
  upperFirst
    (match s.data.flatMap (fun c => if isUpperCh c then [' ', c] else [c]) with
     | ' ' :: rest => String.mk rest
     | l => String.mk l)

/-- Modelled from the spec: lodash `_.kebabCase` (spec section 4.1), an
external library of the source: insert a dash before each ASCII
uppercase letter, lowercase everything. -/
def kebabCaseModel (s : String) : String :=
  match s.data.flatMap (fun c => if isUpperCh c then ['-', lowChar c] else [c]) with
  | '-' :: rest => String.mk rest
  | l => String.mk l

/-- Modelled from the spec: `generator-base`'s `getTableName` (an
external collaborator of the source; spec section 3: table names are the
snake-cased entity name). -/
def getTableNameModel (s : String) : String := snakeCaseModel s

/-- Modelled from the spec: `generator-base`'s `getColumnName` (an
external collaborator of the source; spec section 4.2: column names are
the snake-cased identifier). -/
def getColumnNameModel (s : String) : String := snakeCaseModel s

/-- Modelled from the spec: the `reserved-keywords` module
(`../../jdl/jhipster/reserved-keywords`) is outside this source tree.
Per spec section 3 a table name collides when it equals a
database-reserved word, compared case-insensitively. -/
def reservedTableWords : List String :=
  ["user", "group", "order", "analyze", "check", "table"]

/-- Modelled from the spec: `isReservedTableName(name, dbType)` of the
external `reserved-keywords` module: case-insensitive membership in the
reserved-word list. -/
def isReservedTableName (name dbType : String) : Bool :=
  reservedTableWords.contains (asciiLowerStr name)

/-- JavaScript truthiness of an optional string: `undefined` and the
empty string are falsy. -/
def jsFalsy : Option String → Bool
  | none => true
  | some s => s = ""

/-- JavaScript `a || b` for an optional string `a` and a string `b`. -/
def jsOrS (a : Option String) (b : String) : String :=
  match a with
  | none => b
  | some s => if s = "" then b else s

/-- An ASCII identifier: non-empty, starts with an ASCII letter, and
continues with ASCII letters and digits (spec section 3: alphanumeric,
not starting with a digit). -/
def isAsciiIdent (s : String) : Bool :=
  match s.data with
  | [] => false
  | c :: cs => (isUpperCh c || isLowerCh c) && cs.all (fun d => isUpperCh d || isLowerCh d || isDigitCh d)

/-! ### Data model (spec section 3; source `src/generators/entity/index.js`)

A raw field or relationship record is a JSON object whose keys may be
absent; absent keys are `none`.  JavaScript `_.isUndefined(x)` is
`x = none`.  A `fieldValidateRules` value that is present is an array
(the source's "not an array" fatal case is unrepresentable in this
embedding and noted where it occurs). -/

/-- A raw/partially-resolved field record (FieldSpec of spec section 3).
Derived attributes not consumed by any verified property
(`fieldTypeBlobContent` aside) are omitted. -/
structure Field where
  fieldName : Option String := none
  fieldType : Option String := none
  fieldTypeBlobContent : Option String := none
  fieldValidateRules : Option (List String) := none
  fieldValidateRulesMax : Option String := none
  fieldValidateRulesMin : Option String := none
  fieldValidateRulesMaxlength : Option String := none
  fieldValidateRulesMinlength : Option String := none
  fieldValidateRulesMaxbytes : Option String := none
  fieldValidateRulesMinbytes : Option String := none
  fieldValidateRulesPattern : Option String := none
  -- derived attributes (filled by the Field Normalizer)
  fieldNameCapitalized : Option String := none
  fieldNameUnderscored : Option String := none
  fieldNameAsDatabaseColumn : Option String := none
  fieldNameHumanized : Option String := none
  fieldInJavaBeanMethod : Option String := none
  fieldValidateRulesPatternJava : Option String := none
  fieldValidateRulesPatternAngular : Option String := none
  fieldValidateRulesPatternReact : Option String := none
  fieldIsEnum : Option Bool := none
  fieldValidate : Option Bool := none
  -- `field.validation`, set by the ByteBuffer clearing of validateFile (line 375)
  validation : Option Bool := none
  -- `field.options.fieldNameHumanized` (line 591/649)
  optionsFieldNameHumanized : Option String := none
deriving DecidableEq

/-- A raw/partially-resolved relationship record (RelationshipSpec of
spec section 3).  Client-routing attributes of the source
(otherEntityAngularName, otherEntityModuleName, module paths,
lines 860-924) are independent of every verified property and omitted. -/
structure Rel where
  relationshipName : Option String := none
  otherEntityName : Option String := none
  relationshipType : Option String := none
  ownerSide : Option Bool := none
  otherEntityField : Option String := none
  relationshipValidateRules : Option (List String) := none
  -- derived attributes
  otherEntityRelationshipName : Option String := none
  otherEntityRelationshipNamePlural : Option String := none
  otherEntityRelationshipNameCapitalized : Option String := none
  otherEntityRelationshipNameCapitalizedPlural : Option String := none
  relationshipNameCapitalized : Option String := none
  relationshipNameCapitalizedPlural : Option String := none
  relationshipNameHumanized : Option String := none
  relationshipNamePlural : Option String := none
  relationshipFieldName : Option String := none
  relationshipFieldNamePlural : Option String := none
  otherEntityIsEmbedded : Option Bool := none
  otherEntityTableName : Option String := none
  otherEntityNamePlural : Option String := none
  otherEntityNameCapitalized : Option String := none
  otherEntityNameCapitalizedPlural : Option String := none
  otherEntityFieldCapitalized : Option String := none
  -- `relationship.options.relationshipNameHumanized` (line 723/810)
  optionsRelationshipNameHumanized : Option String := none
deriving DecidableEq

/-- The sibling entity document returned by `_getEntityJson` (lines
1164-1180): the raw persisted JSON of the other entity, of which the
resolver consults these keys. -/
structure SiblingData where
  relationships : Option (List Rel) := none
  dto : Option String := none
  embedded : Option Bool := none
  entityTableName : Option String := none
  microserviceName : Option String := none
  clientRootFolder : Option String := none
deriving DecidableEq

/-- Non-fatal diagnostics (`this.warning(...)` calls of the source).
Each constructor records the offending entity/field/relationship, not
the message text. -/
inductive Warning where
  | lobValidationDisabled (entityName : String) (field : Field)
  | relationshipNameFallback (entityName : String) (rel : Rel)
  | otherEntityRelationshipNameFallback (entityName : String) (rel : Rel)
  | otherEntityFieldFallback (entityName : String) (rel : Rel)
  | changelogDateFallback (entityName : String)
  | dtoFallback (entityName : String)
  | serviceFallback (entityName : String)
  | jpaMetamodelFilteringFallback (entityName : String)
  | paginationFallback (entityName : String)
  | reservedFieldName (fieldNameUnderscored : String)
  | cannotCompareReference (otherEntityName : String) (otherRel : Rel)
  | dtoMapstructMismatch (otherEntityName : String)
  | reservedTableNamePrefixed (entityTableName : String)
  | reservedTableNameNoPref (entityTableName : String)
  | oracleTableNameLong (entityTableName : String)
deriving DecidableEq

/-- Fatal diagnostics (`this.error(...)` calls of the source's
validateFile, spec's `SchemaError`).  Every constructor arising from a
field or relationship carries the owning entity's name and the offending
record, mirroring the source's messages, which embed both. -/
inductive SchemaErr where
  | fieldNameMissing (entityName : String) (field : Field)
  | fieldTypeMissing (entityName : String) (field : Field)
  | unknownValidationRule (entityName : String) (field : Field) (rule : String)
  | companionMissing (entityName : String) (field : Field) (companion : String)
  | otherEntityNameMissing (entityName : String) (rel : Rel)
  | relationshipTypeMissing (entityName : String) (rel : Rel)
  | ownerSideMissing (entityName : String) (rel : Rel)
deriving DecidableEq

/-- The entity name carried by a `SchemaErr` (every source error message
names the entity's `.jhipster/<entityName>.json` file). -/
def SchemaErr.entity : SchemaErr → String
  | .fieldNameMissing n _ => n
  | .fieldTypeMissing n _ => n
  | .unknownValidationRule n _ _ => n
  | .companionMissing n _ _ => n
  | .otherEntityNameMissing n _ => n
  | .relationshipTypeMissing n _ => n
  | .ownerSideMissing n _ => n

/-- The field record carried by a `SchemaErr` raised while validating a
field (every such source message stringifies the field). -/
def SchemaErr.fieldOf : SchemaErr → Option Field
  | .fieldNameMissing _ f => some f
  | .fieldTypeMissing _ f => some f
  | .unknownValidationRule _ f _ => some f
  | .companionMissing _ f _ => some f
  | _ => none

/-- Modelled from the spec: `constants.SUPPORTED_VALIDATION_RULES` of the
external `generator-constants` module (spec section 4.2: a fixed
supported set containing the companion-carrying rules plus `required`
and `unique`). -/
def SUPPORTED_VALIDATION_RULES : List String :=
  ["required", "unique", "min", "max", "minlength", "maxlength",
   "minbytes", "maxbytes", "pattern"]

/-- The companion attribute demanded by a validation rule, when the rule
requires one (lines 338-368: `max`, `min`, `maxlength`, `minlength`,
`maxbytes`, `minbytes`, `pattern`). -/
def companionOf (f : Field) : String → Option (Option String)
  | "max" => some f.fieldValidateRulesMax
  | "min" => some f.fieldValidateRulesMin
  | "maxlength" => some f.fieldValidateRulesMaxlength
  | "minlength" => some f.fieldValidateRulesMinlength
  | "maxbytes" => some f.fieldValidateRulesMaxbytes
  | "minbytes" => some f.fieldValidateRulesMinbytes
  | "pattern" => some f.fieldValidateRulesPattern
  | _ => none

/-- The rules whose companion parameter is required. -/
def companionRules : List String :=
  ["max", "min", "maxlength", "minlength", "maxbytes", "minbytes", "pattern"]

/-! ### Entity Validator, field part (validateFile, lines 312-379) -/

/-- Per-field validation of `validateFile` (lines 316-379): fatal checks
in source order, then the ByteBuffer clearing (lines 369-377), which
sets `field.validation = false` and empties the rules with one warning.
The result is the (possibly mutated) field, the emitted warnings, and
the fatal error, if any — matching the in-place mutation and thrown
exception of the source. -/
def validateField (entityName : String) (f : Field) : Field × List Warning × Option SchemaErr :=
  if f.fieldName = none then (f, [], some (.fieldNameMissing entityName f))
  else if f.fieldType = none then (f, [], some (.fieldTypeMissing entityName f))
  else
    match f.fieldValidateRules with
    | none => (f, [], none)
    | some rules =>
      match rules.find? (fun r => !(SUPPORTED_VALIDATION_RULES.contains r)) with
      | some bad => (f, [], some (.unknownValidationRule entityName f bad))
      | none =>
        if rules.contains "max" ∧ f.fieldValidateRulesMax = none then
          (f, [], some (.companionMissing entityName f "max"))
        else if rules.contains "min" ∧ f.fieldValidateRulesMin = none then
          (f, [], some (.companionMissing entityName f "min"))
        else if rules.contains "maxlength" ∧ f.fieldValidateRulesMaxlength = none then
          (f, [], some (.companionMissing entityName f "maxlength"))
        else if rules.contains "minlength" ∧ f.fieldValidateRulesMinlength = none then
          (f, [], some (.companionMissing entityName f "minlength"))
        else if rules.contains "maxbytes" ∧ f.fieldValidateRulesMaxbytes = none then
          (f, [], some (.companionMissing entityName f "maxbytes"))
        else if rules.contains "minbytes" ∧ f.fieldValidateRulesMinbytes = none then
          (f, [], some (.companionMissing entityName f "minbytes"))
        else if rules.contains "pattern" ∧ f.fieldValidateRulesPattern = none then
          (f, [], some (.companionMissing entityName f "pattern"))
        else if f.fieldType = some "ByteBuffer" then
          ({ f with validation := some false, fieldValidateRules := some [] },
           [Warning.lobValidationDisabled entityName f], none)
        else (f, [], none)

/-! ### Field Normalizer (loadInMemoryData, per-field part, lines 590-719) -/

/-- Replace every non-overlapping occurrence of `pat` in a character
list by `rep`, left to right (JavaScript `String.prototype.replace` with
a global pattern). -/
def replaceAllL (l pat rep : List Char) : List Char :=
  match l with
  | [] => []
  | c :: rest =>
    if pat ≠ [] ∧ pat.isPrefixOf (c :: rest) then
      rep ++ replaceAllL (rest.drop (pat.length - 1)) pat rep
    else c :: replaceAllL rest pat rep
termination_by l.length
decreasing_by
  all_goals simp [List.length_drop]
  all_goals omega

/-- String version of `replaceAllL`. -/
def replaceStr (s pat rep : String) : String :=
  String.mk (replaceAllL s.data pat.data rep.data)

/-- The apostrophe as a string (character code 39). -/
def aposStr : String := String.mk [Char.ofNat 39]

/-- A backslash-escaped apostrophe as a string. -/
def escAposStr : String := String.mk ['\\', Char.ofNat 39]

/-- Lines 593-595: legacy temporal types `DateTime` and `Date` are
rewritten to `Instant` (migration from JodaTime to Java Time). -/
def rewriteTemporalType (t : String) : String :=
  if t = "DateTime" ∨ t = "Date" then "Instant" else t

/-- Lines 602-617: the fixed closed set of 14 primitive type names; a
`fieldType` outside it is an enum. -/
def PRIMITIVE_TYPE_NAMES : List String :=
  ["String", "Integer", "Long", "Float", "Double", "BigDecimal",
   "LocalDate", "Instant", "ZonedDateTime", "Duration", "UUID",
   "Boolean", "byte[]", "ByteBuffer"]

/-- Lines 652-666: the Java-bean accessor name; when the first letter is
lowercase and the second uppercase, the field name is kept with its
first letter lowercased, otherwise it is capitalized. -/
def javaBeanMethodName (fn : String) : String :=
  match fn.data with
  | c1 :: c2 :: rest =>
    if lowChar c1 = c1 ∧ upChar c2 = c2 then String.mk (lowChar c1 :: c2 :: rest)
    else upperFirst fn
  | _ => upperFirst fn

/-- The shared-configuration values the per-field normalization reads
(`context.jhiPrefix` and `context.prodDatabaseType`). -/
structure NormCtx where
  jhiPref : String := ""
  prodDatabaseType : String := ""
deriving DecidableEq

/-- The per-field body of `loadInMemoryData` (lines 590-719, context
aggregation flags excluded): temporal-type migration, `fieldIsEnum`
classification, and the derived case variants, each computed only when
not already present — except `fieldIsEnum` (line 602) and
`fieldValidate` (line 686), which the source recomputes unconditionally.
Returns the normalized field and the warnings of the reserved
column-name branch (lines 634-642). -/
def normalizeField (ctx : NormCtx) (f0 : Field) : Field × List Warning :=
  let f := { f0 with fieldType := f0.fieldType.map rewriteTemporalType }
  let fieldType := f.fieldType.getD ""
  let fn := f.fieldName.getD ""
  -- lines 631-646: database column name, with reserved-word handling
  let dbColW : String × List Warning :=
    match f.fieldNameAsDatabaseColumn with
    | some v => (v, [])
    | none =>
      let fieldNameUnderscored := snakeCaseModel fn
      let jhiFieldNamePref := getColumnNameModel ctx.jhiPref
      if isReservedTableName fieldNameUnderscored ctx.prodDatabaseType then
        if jhiFieldNamePref = "" then
          (fieldNameUnderscored, [Warning.reservedFieldName fieldNameUnderscored])
        else (jhiFieldNamePref ++ "_" ++ fieldNameUnderscored, [])
      else (fieldNameUnderscored, [])
  ({ f with
      fieldIsEnum := some (!(PRIMITIVE_TYPE_NAMES.contains fieldType)),
      fieldNameCapitalized := some (f.fieldNameCapitalized.getD (upperFirst fn)),
      fieldNameUnderscored := some (f.fieldNameUnderscored.getD (snakeCaseModel fn)),
      fieldNameAsDatabaseColumn := some dbColW.1,
      fieldNameHumanized :=
        some (f.fieldNameHumanized.getD (jsOrS f.optionsFieldNameHumanized (startCaseModel fn))),
      fieldInJavaBeanMethod := some (f.fieldInJavaBeanMethod.getD (javaBeanMethodName fn)),
      fieldValidateRulesPatternJava :=
        match f.fieldValidateRulesPatternJava with
        | some v => some v
        | none =>
          f.fieldValidateRulesPattern.map fun p =>
            if p = "" then p else replaceStr (replaceStr p "\\" "\\\\") "\"" "\\\"",
      fieldValidateRulesPatternAngular :=
        match f.fieldValidateRulesPatternAngular with
        | some v => some v
        | none =>
          f.fieldValidateRulesPattern.map fun p =>
            if p = "" then p else replaceStr p "\"" "&#34;",
      fieldValidateRulesPatternReact :=
        match f.fieldValidateRulesPatternReact with
        | some v => some v
        | none =>
          f.fieldValidateRulesPattern.map fun p =>
            if p = "" then p else replaceStr p aposStr escAposStr,
      fieldValidate :=
        some (match f.fieldValidateRules with
              | some rs => decide (rs.length ≥ 1)
              | none => false) },
   dbColW.2)

/-! ### Entity Validator, relationship part (validateFile, lines 382-439) -/

/-- Per-relationship validation of `validateFile` (lines 382-439), in
source order: `relationshipName` fallback (383-390), fatal
`otherEntityName` check (392-396), `otherEntityRelationshipName`
fallback (398-411), `otherEntityField` fallback (413-425), fatal
`relationshipType` check (427-431), fatal `ownerSide` check (433-438).
Returns the (possibly mutated) relationship, the warnings, and the
fatal error, if any. -/
def validateRel (entityName : String) (r0 : Rel) : Rel × List Warning × Option SchemaErr :=
  let step1 : Rel × List Warning :=
    if r0.relationshipName = none then
      let r := { r0 with relationshipName := r0.otherEntityName }
      (r, [Warning.relationshipNameFallback entityName r])
    else (r0, [])
  let r1 := step1.1
  if r1.otherEntityName = none then (r1, step1.2, some (.otherEntityNameMissing entityName r1))
  else
    let step2 : Rel × List Warning :=
      if r1.otherEntityRelationshipName = none ∧ r1.relationshipType ≠ none ∧
         r1.relationshipType ≠ some "" then
        let r := { r1 with otherEntityRelationshipName := some (lowerFirst entityName) }
        (r, if r1.otherEntityName ≠ some "user" then
              [Warning.otherEntityRelationshipNameFallback entityName r]
            else [])
      else (r1, [])
    let r2 := step2.1
    let step3 : Rel × List Warning :=
      if r2.otherEntityField = none ∧
         (r2.relationshipType = some "many-to-one" ∨
          (r2.relationshipType = some "many-to-many" ∧ r2.ownerSide = some true) ∨
          (r2.relationshipType = some "one-to-one" ∧ r2.ownerSide = some true)) then
        ({ r2 with otherEntityField := some "id" },
         [Warning.otherEntityFieldFallback entityName r2])
      else (r2, [])
    let r3 := step3.1
    let ws := step1.2 ++ step2.2 ++ step3.2
    if r3.relationshipType = none then (r3, ws, some (.relationshipTypeMissing entityName r3))
    else if r3.ownerSide = none ∧
            (r3.relationshipType = some "one-to-one" ∨ r3.relationshipType = some "many-to-many") then
      (r3, ws, some (.ownerSideMissing entityName r3))
    else (r3, ws, none)

/-! ### Relationship Resolver (loadInMemoryData, per-relationship part,
lines 722-957).  Attributes not derived here (otherEntityPrimaryKeyType,
line 736, needs the external `getPkType`; the client-module attributes of
lines 860-924; the context aggregation flags of lines 926-947) are
independent of every verified property and omitted. -/

/-- The shared-configuration values the relationship resolver reads. -/
structure LoadCtx where
  jhiPref : String := ""
  prodDatabaseType : String := ""
  dto : Option String := none
deriving DecidableEq

/-- Lines 744-777: one step of the `forEach` over the sibling document's
relationships — skip when the sibling relationship does not point back
at the owning entity; warn and skip when its
`otherEntityRelationshipName` is missing; skip when that name differs
from the local relationship's name; on a type-compatible match, copy the
reciprocal-name variants, each guarded by JavaScript `||` on the
already-present value — except `otherEntityRelationshipNameCapitalizedPlural`
(line 773), which is assigned unconditionally. -/
def reciprocalStep (entityName otherEntityName : String) (acc : Rel × List Warning)
    (orel : Rel) : Rel × List Warning :=
  let rr := acc.1
  if upperFirst (orel.otherEntityName.getD "") ≠ entityName then acc
  else if jsFalsy orel.otherEntityRelationshipName then
    (rr, acc.2 ++ [Warning.cannotCompareReference otherEntityName orel])
  else if orel.otherEntityRelationshipName ≠ rr.relationshipName then acc
  else if (rr.relationshipType = some "many-to-one" ∧ orel.relationshipType = some "one-to-many") ∨
          (rr.relationshipType = some "many-to-many" ∧ orel.relationshipType = some "many-to-many") then
    let orName := orel.relationshipName.getD ""
    let cap := jsOrS rr.otherEntityRelationshipNameCapitalized (upperFirst orName)
    ({ rr with
        otherEntityRelationshipName := some (jsOrS rr.otherEntityRelationshipName orName),
        otherEntityRelationshipNamePlural :=
          some (jsOrS rr.otherEntityRelationshipNamePlural (pluralize orName)),
        otherEntityRelationshipNameCapitalized := some cap,
        otherEntityRelationshipNameCapitalizedPlural := some (pluralize cap) }, acc.2)
  else acc

/-- Lines 726-733: the embedded flag copied from the sibling document. -/
def embeddedStage (otherEntityData : Option SiblingData) (r : Rel) : Rel :=
  match otherEntityData with
  | some od => if od.embedded = some true then { r with otherEntityIsEmbedded := some true } else r
  | none => r

/-- Lines 741-779: reciprocal-side inference — the sibling document's
relationships are walked only when it exists, lists relationships, and
the local relationship is many-to-one or many-to-many. -/
def recipStage (entityName otherEntityName : String) (otherEntityData : Option SiblingData)
    (r : Rel) : Rel × List Warning :=
  match otherEntityData with
  | some od =>
    match od.relationships with
    | some orels =>
      if r.relationshipType = some "many-to-one" ∨ r.relationshipType = some "many-to-many" then
        orels.foldl (reciprocalStep entityName otherEntityName) (r, [])
      else (r, [])
    | none => (r, [])
  | none => (r, [])

/-- Lines 781-795: reciprocal-name variants, derived only when the base
name is defined and only where absent. -/
def oernVariantsStage (r : Rel) : Rel :=
  if r.otherEntityRelationshipName ≠ none then
    let oern := r.otherEntityRelationshipName.getD ""
    { r with
      otherEntityRelationshipNamePlural :=
        some (r.otherEntityRelationshipNamePlural.getD (pluralize oern)),
      otherEntityRelationshipNameCapitalized :=
        some (r.otherEntityRelationshipNameCapitalized.getD (upperFirst oern)),
      otherEntityRelationshipNameCapitalizedPlural :=
        some (r.otherEntityRelationshipNameCapitalizedPlural.getD (pluralize (upperFirst oern))) }
  else r

/-- Lines 797-824: relationship-name variants (idempotent merge). -/
def relNameVariantsStage (r : Rel) : Rel :=
  let rn := r.relationshipName.getD ""
  { r with
    relationshipNameCapitalized := some (r.relationshipNameCapitalized.getD (upperFirst rn)),
    relationshipNameCapitalizedPlural :=
      some (r.relationshipNameCapitalizedPlural.getD
        (if rn.length > 1 then pluralize (upperFirst rn) else upperFirst (pluralize rn))),
    relationshipNameHumanized :=
      some (r.relationshipNameHumanized.getD
        (jsOrS r.optionsRelationshipNameHumanized (startCaseModel rn))),
    relationshipNamePlural := some (r.relationshipNamePlural.getD (pluralize rn)),
    relationshipFieldName := some (r.relationshipFieldName.getD (lowerFirst rn)),
    relationshipFieldNamePlural := some (r.relationshipFieldNamePlural.getD (pluralize (lowerFirst rn))) }

/-- Lines 838-850: the other entity's table name — the special `user`
target gets the fixed prefixed table name; otherwise the sibling's table
name (or the derived one) with reserved-word prefixing. -/
def otherTableStage (jhiTablePref prodDatabaseType otherEntityName : String)
    (otherEntityData : Option SiblingData) (r : Rel) : Rel :=
  if otherEntityName = "user" then { r with otherEntityTableName := some (jhiTablePref ++ "_user") }
  else
    let t0 := jsOrS (otherEntityData.bind (·.entityTableName)) (getTableNameModel otherEntityName)
    let t :=
      if isReservedTableName t0 prodDatabaseType ∧ jhiTablePref ≠ "" then
        jhiTablePref ++ "_" ++ t0
      else t0
    { r with otherEntityTableName := some t }

/-- Lines 852-875: other-entity name variants (idempotent merge). -/
def otherNameVariantsStage (otherEntityName : String) (r : Rel) : Rel :=
  { r with
    otherEntityNamePlural := some (r.otherEntityNamePlural.getD (pluralize otherEntityName)),
    otherEntityNameCapitalized := some (r.otherEntityNameCapitalized.getD (upperFirst otherEntityName)),
    otherEntityNameCapitalizedPlural :=
      some (r.otherEntityNameCapitalizedPlural.getD (pluralize (upperFirst otherEntityName))),
    otherEntityFieldCapitalized :=
      some (r.otherEntityFieldCapitalized.getD (upperFirst (r.otherEntityField.getD ""))) }

/-- Lines 826-836: the DTO cross-document consistency warning. -/
def dtoWarnings (dto : Option String) (otherEntityName : String)
    (otherEntityData : Option SiblingData) : List Warning :=
  if dto = some "mapstruct" then
    match otherEntityData with
    | some od =>
      if od.dto ≠ some "mapstruct" ∧ otherEntityName ≠ "user" then
        [Warning.dtoMapstructMismatch otherEntityName]
      else []
    | none => []
  else []

/-- The per-relationship body of `loadInMemoryData` (lines 722-957,
omissions as noted above): sibling lookup, embedded flag, reciprocal-side
inference, idempotent naming derivations, DTO cross-check warning, and
the other entity's table name with reserved-word handling, in source
order. -/
def loadRel (entityName : String) (ctx : LoadCtx) (lookup : String → Option SiblingData)
    (r0 : Rel) : Rel × List Warning :=
  let otherEntityName := r0.otherEntityName.getD ""
  let otherEntityData := lookup otherEntityName
  let jhiTablePref := getTableNameModel ctx.jhiPref
  let recip := recipStage entityName otherEntityName otherEntityData (embeddedStage otherEntityData r0)
  (otherNameVariantsStage otherEntityName
    (otherTableStage jhiTablePref ctx.prodDatabaseType otherEntityName otherEntityData
      (relNameVariantsStage (oernVariantsStage recip.1))),
   recip.2 ++ dtoWarnings ctx.dto otherEntityName otherEntityData)

/-! ### Document-level validation and descriptor assembly -/

/-- The raw entity document (spec section 3; `this.context` of the
source restricted to the keys `validateFile` reads and writes). -/
structure EntityDoc where
  fields : List Field := []
  relationships : List Rel := []
  databaseType : String := ""
  changelogDate : Option String := none
  dto : Option String := none
  service : Option String := none
  jpaMetamodelFiltering : Option Bool := none
  pagination : Option String := none
deriving DecidableEq

/-- Sequential in-place validation of the fields (the `forEach` of line
316): a thrown error stops the walk, and the fields already processed
keep their mutations — the remaining fields are untouched. -/
def validateFields (entityName : String) : List Field → List Field × List Warning × Option SchemaErr
  | [] => ([], [], none)
  | f :: fs =>
    let res := validateField entityName f
    match res.2.2 with
    | some err => (res.1 :: fs, res.2.1, some err)
    | none =>
      let rest := validateFields entityName fs
      (res.1 :: rest.1, res.2.1 ++ rest.2.1, rest.2.2)

/-- Sequential in-place validation of the relationships (the `forEach`
of line 382), with the same stop-at-first-error behaviour. -/
def validateRels (entityName : String) : List Rel → List Rel × List Warning × Option SchemaErr
  | [] => ([], [], none)
  | r :: rs =>
    let res := validateRel entityName r
    match res.2.2 with
    | some err => (res.1 :: rs, res.2.1, some err)
    | none =>
      let rest := validateRels entityName rs
      (res.1 :: rest.1, res.2.1 ++ rest.2.1, rest.2.2)

/-- `validateFile` (lines 312-469): fields, then relationships, then the
root-level defaults of lines 441-462 (`currentDate` stands for
`this.dateFormatForLiquibase()`; the client-root-folder block of lines
463-468 concerns microservice layout and is omitted).  The document is
mutated in place: on a fatal error the mutations already applied
persist. -/
def validateFile (entityName currentDate : String) (d : EntityDoc) :
    EntityDoc × List Warning × Option SchemaErr :=
  let fres := validateFields entityName d.fields
  let d1 := { d with fields := fres.1 }
  match fres.2.2 with
  | some e => (d1, fres.2.1, some e)
  | none =>
    let rres := validateRels entityName d1.relationships
    let d2 := { d1 with relationships := rres.1 }
    match rres.2.2 with
    | some e => (d2, fres.2.1 ++ rres.2.1, some e)
    | none =>
      let s1 : EntityDoc × List Warning :=
        if d2.changelogDate = none ∧ (d2.databaseType = "sql" ∨ d2.databaseType = "cassandra") then
          ({ d2 with changelogDate := some currentDate }, [Warning.changelogDateFallback entityName])
        else (d2, [])
      let s2 : EntityDoc × List Warning :=
        if s1.1.dto = none then ({ s1.1 with dto := some "no" }, [Warning.dtoFallback entityName])
        else (s1.1, [])
      let s3 : EntityDoc × List Warning :=
        if s2.1.service = none then ({ s2.1 with service := some "no" }, [Warning.serviceFallback entityName])
        else (s2.1, [])
      let s4 : EntityDoc × List Warning :=
        if s3.1.jpaMetamodelFiltering = none then
          ({ s3.1 with jpaMetamodelFiltering := some false },
           [Warning.jpaMetamodelFilteringFallback entityName])
        else (s3.1, [])
      let s5 : EntityDoc × List Warning :=
        if s4.1.pagination = none then
          ({ s4.1 with pagination := some "no" }, [Warning.paginationFallback entityName])
        else (s4.1, [])
      (s5.1, fres.2.1 ++ rres.2.1 ++ s1.2 ++ s2.2 ++ s3.2 ++ s4.2 ++ s5.2, none)

/-- Line 949: the related-entity type key under which a resolved
relationship is registered (`relationship.otherEntityNameCapitalized`;
after resolution it is always present, the fallback mirrors its
derivation at lines 856-858). -/
def relEntityType (r : Rel) : String :=
  r.otherEntityNameCapitalized.getD (upperFirst (r.otherEntityName.getD ""))

/-- Lines 950-952: append each newly encountered related-entity type,
keeping first-encounter order, starting from the seed list (line 581
seeds it with the owning entity's class name). -/
def buildTypes (acc : List String) : List Rel → List String
  | [] => acc
  | r :: rs =>
    buildTypes (if acc.contains (relEntityType r) then acc else acc ++ [relEntityType r]) rs

/-- Lines 953-956: push a relationship onto the bucket of its type in an
insertion-ordered association list (a JavaScript object keyed by type). -/
def addRel (m : List (String × List Rel)) (t : String) (r : Rel) : List (String × List Rel) :=
  match m with
  | [] => [(t, [r])]
  | (k, v) :: rest => if k = t then (k, v ++ [r]) :: rest else (k, v) :: addRel rest t r

/-- Fold of `addRel` over the relationships (lines 953-956; line 585
seeds the empty object). -/
def buildRelMap (m : List (String × List Rel)) : List Rel → List (String × List Rel)
  | [] => m
  | r :: rs => buildRelMap (addRel m (relEntityType r) r) rs

/-- The resolved descriptor: the slice of the assembled context handed
downstream that the verified properties concern. -/
structure Descriptor where
  entityClass : String
  fields : List Field
  relationships : List Rel
  differentTypes : List String
  differentRelationships : List (String × List Rel)

/-- Descriptor assembly (`loadInMemoryData`, lines 523-973 in the scope
described above): `entityClass` is the capitalized entity name (lines
528 and 1212), every field is normalized, every relationship resolved
against the sibling lookup, and the distinct-type list and per-type
relationship map are folded over the resolved relationships (lines
580-586 and 949-956). -/
def assembleDescriptor (entityName : String) (nctx : NormCtx) (lctx : LoadCtx)
    (lookup : String → Option SiblingData) (d : EntityDoc) : Descriptor × List Warning :=
  let entityClass := upperFirst entityName
  let fields := d.fields.map (fun f => (normalizeField nctx f).1)
  let rels := d.relationships.map (fun r => (loadRel entityName lctx lookup r).1)
  ({ entityClass := entityClass, fields := fields, relationships := rels,
     differentTypes := buildTypes [entityClass] rels,
     differentRelationships := buildRelMap [] rels },
   d.fields.flatMap (fun f => (normalizeField nctx f).2) ++
     d.relationships.flatMap (fun r => (loadRel entityName lctx lookup r).2))

/-- The configuring pass over one document: `validateFile` then, only
when it succeeded, `loadInMemoryData` (source order of `_configuring`,
lines 310-989).  On a fatal error no descriptor is produced and the
mutated document is returned as the source leaves it. -/
def resolveDocument (entityName currentDate : String) (nctx : NormCtx) (lctx : LoadCtx)
    (lookup : String → Option SiblingData) (d : EntityDoc) :
    Option Descriptor × EntityDoc × List Warning :=
  let v := validateFile entityName currentDate d
  match v.2.2 with
  | some _ => (none, v.1, v.2.1)
  | none =>
    let a := assembleDescriptor entityName nctx lctx lookup v.1
    (some a.1, v.1, v.2.1 ++ a.2)

/-! ### Table-name validation (_validateTableName, lines 1126-1158) -/

/-- The outcome of `_validateTableName`: the source returns an error
message string, or `true` after possibly mutating
`context.entityTableName` and warning. -/
inductive TableNameResult where
  | invalid (msg : String)
  | valid (entityTableName : String) (warnings : List Warning)
deriving DecidableEq

/-- The configuration `_validateTableName` reads. -/
structure TableCtx where
  prodDatabaseType : String := ""
  jhiTablePref : String := ""
  skipCheckLengthOfIdentifier : Bool := false
deriving DecidableEq

/-- `_validateTableName` (lines 1126-1158): special-character and
emptiness checks, then the reserved-word branch — with a table prefix
configured, the name is prefixed (line 1144) and a warning emitted;
without one, the name is left unchanged with a warning; either way the
check passes.  Otherwise the Oracle length limits apply. -/
def validateTableName (ctx : TableCtx) (entityTableName : String) : TableNameResult :=
  if ¬ (entityTableName.data.all fun c => isUpperCh c || isLowerCh c || isDigitCh c || c = '_') then
    .invalid "The table name cannot contain special characters"
  else if entityTableName = "" then .invalid "The table name cannot be empty"
  else if isReservedTableName entityTableName ctx.prodDatabaseType then
    if ctx.jhiTablePref ≠ "" then
      .valid (ctx.jhiTablePref ++ "_" ++ entityTableName)
        [Warning.reservedTableNamePrefixed entityTableName]
    else
      .valid entityTableName [Warning.reservedTableNameNoPref entityTableName]
  else if ctx.prodDatabaseType = "oracle" ∧ entityTableName.length > 26 ∧
          ¬ ctx.skipCheckLengthOfIdentifier then
    .invalid "The table name is too long for Oracle"
  else if ctx.prodDatabaseType = "oracle" ∧ entityTableName.length > 14 ∧
          ¬ ctx.skipCheckLengthOfIdentifier then
    .valid entityTableName [Warning.oracleTableNameLong entityTableName]
  else .valid entityTableName []

/-! ### Helper lemmas about the ASCII case functions -/

/-- `Char.ofNat` round-trips through `toNat` below the surrogate range. -/
theorem toNat_charOfNat {n : Nat} (h : n < 55296) : (Char.ofNat n).toNat = n := by
  have hv : n.isValidChar := Or.inl h
  simp [Char.ofNat, Char.ofNatAux, Char.toNat, hv, UInt32.toNat, BitVec.toNat_ofNatLt]

/-- Characters with equal code points are equal. -/
theorem char_eq_of_toNat_eq {a b : Char} (h : a.toNat = b.toNat) : a = b :=
  Char.ext (UInt32.toNat.inj h)

/-- A character's code point is below the surrogate range whenever it is
an ASCII letter context we care about; more precisely any character code
is a valid scalar value, but we only need the bound for codes ≤ 122. -/
theorem upChar_toNat (c : Char) (h : 97 ≤ c.toNat ∧ c.toNat ≤ 122) :
    (upChar c).toNat = c.toNat - 32 := by
  rw [upChar, if_pos h]
  exact toNat_charOfNat (by omega)

theorem lowChar_toNat (c : Char) (h : 65 ≤ c.toNat ∧ c.toNat ≤ 90) :
    (lowChar c).toNat = c.toNat + 32 := by
  rw [lowChar, if_pos h]
  exact toNat_charOfNat (by omega)

/-- Lowercasing after uppercasing equals plain lowercasing. -/
theorem lowChar_upChar (c : Char) : lowChar (upChar c) = lowChar c := by
  by_cases h : 97 ≤ c.toNat ∧ c.toNat ≤ 122
  · have hup : (upChar c).toNat = c.toNat - 32 := upChar_toNat c h
    have hlow : lowChar (upChar c) = Char.ofNat ((upChar c).toNat + 32) := by
      rw [lowChar, if_pos (by omega)]
    have hc : lowChar c = c := by
      rw [lowChar, if_neg (by omega)]
    rw [hlow, hc, hup]
    have : c.toNat - 32 + 32 = c.toNat := by omega
    rw [this]
    apply char_eq_of_toNat_eq
    exact toNat_charOfNat (by have := c.val.toNat_lt_size; omega)
  · rw [upChar, if_neg h]

/-- Uppercasing is idempotent. -/
theorem upChar_upChar (c : Char) : upChar (upChar c) = upChar c := by
  by_cases h : 97 ≤ c.toNat ∧ c.toNat ≤ 122
  · have hup : (upChar c).toNat = c.toNat - 32 := upChar_toNat c h
    have h2 : ¬(97 ≤ (upChar c).toNat ∧ (upChar c).toNat ≤ 122) := by omega
    conv_lhs => rw [upChar]
    rw [if_neg h2]
  · have hc : upChar c = c := by rw [upChar, if_neg h]
    rw [hc, hc]

/-- Uppercasing an ASCII letter yields an ASCII uppercase letter. -/
theorem isUpperCh_upChar (c : Char) (h : (isUpperCh c || isLowerCh c) = true) :
    isUpperCh (upChar c) = true := by
  rw [isUpperCh, isLowerCh] at h
  simp only [Bool.or_eq_true, decide_eq_true_eq] at h
  rcases h with h | h
  · rw [upChar, if_neg (by omega), isUpperCh]
    simpa using h
  · have := upChar_toNat c h
    rw [isUpperCh]
    simp only [decide_eq_true_eq]
    omega

/-- `upperFirst` is idempotent on every string. -/
theorem upperFirst_upperFirst (s : String) : upperFirst (upperFirst s) = upperFirst s := by
  cases s with
  | mk l =>
    cases l with
    | nil => rfl
    | cons c cs =>
      show String.mk (upChar (upChar c) :: cs) = String.mk (upChar c :: cs)
      rw [upChar_upChar]

end JhipsterEntity

example : JhipsterEntity.upperFirst "owner" = "Owner" := by decide
example : JhipsterEntity.lowerFirst "Owner" = "owner" := by decide

-- sanity checks of the spec-modelled naming functions on concrete inputs
example : JhipsterEntity.pluralize "car" = "cars" := by decide
example : JhipsterEntity.pluralize "cars" = "cars" := by decide
example : JhipsterEntity.pluralize "Cars" = "Cars" := by decide
example : JhipsterEntity.pluralize "Owner" = "Owners" := by decide
example : JhipsterEntity.pluralize "person" = "people" := by decide
example : JhipsterEntity.pluralize "Person" = "People" := by decide
example : JhipsterEntity.pluralize "category" = "categories" := by decide
example : JhipsterEntity.snakeCaseModel "fieldName" = "field_name" := by decide
example : JhipsterEntity.startCaseModel "firstName" = "First Name" := by decide
example : JhipsterEntity.isReservedTableName "GROUP" "sql" = true := by decide
example : JhipsterEntity.getTableNameModel "Owner" = "owner" := by decide

namespace JhipsterEntity

/-- C9: For every ASCII identifier `s` used by this system,
`capitalize (pluralize s) = pluralize (capitalize s)`: composing the
pluralization and capitalization naming functions commutes
(spec section 4.1; the `capitalize`/`pluralize` compositions of
loadInMemoryData, lines 801-807). -/
theorem pluralize_upperFirst_comm (s : String) (h : isAsciiIdent s = true) :
    upperFirst (pluralize s) = pluralize (upperFirst s) := by
  cases s with
  | mk l =>
    cases l with
    | nil => simp [isAsciiIdent] at h
    | cons c cs =>
      have hc : (isUpperCh c || isLowerCh c) = true := by
        rw [isAsciiIdent] at h
        exact (Bool.and_eq_true _ _ |>.mp h).1
      show upperFirst
          (let core := pluralizeRules (String.mk (lowChar c :: cs))
           if isUpperCh c then upperFirst core else core) =
        pluralize (String.mk (upChar c :: cs))
      have hrhs : pluralize (String.mk (upChar c :: cs)) =
          let core := pluralizeRules (String.mk (lowChar (upChar c) :: cs))
          if isUpperCh (upChar c) then upperFirst core else core := rfl
      rw [hrhs, lowChar_upChar, isUpperCh_upChar c hc]
      simp only [if_true]
      by_cases hup : isUpperCh c = true
      · rw [if_pos hup, upperFirst_upperFirst]
      · rw [if_neg hup]

/-- Witness for C9 at the identifier `car`. -/
theorem pluralize_upperFirst_comm_witness :
    isAsciiIdent "car" = true ∧
      upperFirst (pluralize "car") = pluralize (upperFirst "car") :=
  ⟨by decide, pluralize_upperFirst_comm "car" (by decide)⟩

end JhipsterEntity

namespace JhipsterEntity

/-- C7: For every field, the derived `fieldIsEnum` flag is true iff its
`fieldType`, after the legacy temporal rewriting of `DateTime`/`Date` to
`Instant`, lies outside the fixed closed set of 14 primitive type names
(loadInMemoryData, lines 592-617). -/
theorem fieldIsEnum_iff_not_primitive (ctx : NormCtx) (f : Field) (t : String)
    (h : f.fieldType = some t) :
    ((normalizeField ctx f).1.fieldIsEnum = some true ↔
      rewriteTemporalType t ∉ PRIMITIVE_TYPE_NAMES) := by
  simp [normalizeField, h, List.contains, List.elem_iff]

/-- Witness for C7 at a custom enum type name. -/
theorem fieldIsEnum_iff_not_primitive_witness :
    ({ fieldType := some "Gender" } : Field).fieldType = some "Gender" ∧
      ((normalizeField {} { fieldType := some "Gender" }).1.fieldIsEnum = some true ↔
        rewriteTemporalType "Gender" ∉ PRIMITIVE_TYPE_NAMES) :=
  ⟨rfl, fieldIsEnum_iff_not_primitive {} { fieldType := some "Gender" } "Gender" rfl⟩

end JhipsterEntity

namespace JhipsterEntity

/-- The temporal rewriting of lines 593-595 is idempotent. -/
theorem rewriteTemporalType_idem (t : String) :
    rewriteTemporalType (rewriteTemporalType t) = rewriteTemporalType t := by
  unfold rewriteTemporalType
  split <;> simp_all

/-- C5 (amended): running the Field Normalizer on its own output
changes nothing — the case-variant, column, bean-method and
pattern-escape attributes are derived only when absent, while
`fieldIsEnum` and `fieldValidate` are recomputed unconditionally from
inputs the normalizer never alters, so the second pass reproduces the
first (loadInMemoryData, lines 590-719). -/
theorem normalizeField_idem (ctx : NormCtx) (f : Field) :
    (normalizeField ctx (normalizeField ctx f).1).1 = (normalizeField ctx f).1 := by
  obtain ⟨fn, ft, btc, rules, m1, m2, m3, m4, m5, m6, pat, cap, und, dbc, hum, bean, pj, pa, pr, ie, fv, val, ofh⟩ := f
  simp only [normalizeField, Option.map_map, Function.comp_def, rewriteTemporalType_idem]
  cases pat <;> cases pj <;> cases pa <;> cases pr <;> rfl

end JhipsterEntity

namespace JhipsterEntity

/-- C5 counterexample: `fieldValidate` is not computed "only when not
already present" — a field carrying `fieldValidate = true` with no
validation rules has it overwritten to `false` by a single normalization
pass (line 686 recomputes it unconditionally). -/
theorem fieldValidate_overwritten_despite_present :
    (({ fieldValidate := some true } : Field).fieldValidate = some true) ∧
      (normalizeField {} { fieldValidate := some true }).1.fieldValidate = some false :=
  ⟨rfl, rfl⟩

/-- C2 (amended): a `ByteBuffer` field whose rules pass the
companion-parameter checks has its validation rules forcibly cleared —
`field.validation` is set to `false`, the rules array is emptied, exactly
one warning is emitted and no error is raised; the subsequently derived
`fieldValidate` is `false` (lines 369-377 and 686).  Fields of type
`byte[]` are not treated this way (see the counterexample). -/
theorem byteBuffer_clears_validation (e : String) (f : Field) (rs : List String) (ctx : NormCtx)
    (hn : f.fieldName ≠ none) (ht : f.fieldType = some "ByteBuffer")
    (hr : f.fieldValidateRules = some rs)
    (hok : ∀ r ∈ rs, SUPPORTED_VALIDATION_RULES.contains r = true)
    (h1 : rs.contains "max" = true → f.fieldValidateRulesMax ≠ none)
    (h2 : rs.contains "min" = true → f.fieldValidateRulesMin ≠ none)
    (h3 : rs.contains "maxlength" = true → f.fieldValidateRulesMaxlength ≠ none)
    (h4 : rs.contains "minlength" = true → f.fieldValidateRulesMinlength ≠ none)
    (h5 : rs.contains "maxbytes" = true → f.fieldValidateRulesMaxbytes ≠ none)
    (h6 : rs.contains "minbytes" = true → f.fieldValidateRulesMinbytes ≠ none)
    (h7 : rs.contains "pattern" = true → f.fieldValidateRulesPattern ≠ none) :
    validateField e f =
      ({ f with validation := some false, fieldValidateRules := some [] },
       [Warning.lobValidationDisabled e f], none) ∧
    (normalizeField ctx (validateField e f).1).1.fieldValidate = some false := by
  have hfind : rs.find? (fun r => !(SUPPORTED_VALIDATION_RULES.contains r)) = none := by
    rw [List.find?_eq_none]
    intro r hrm
    have hc := hok r hrm
    rw [List.contains, List.elem_iff] at hc
    simp [hc]
  have hmain : validateField e f =
      ({ f with validation := some false, fieldValidateRules := some [] },
       [Warning.lobValidationDisabled e f], none) := by
    rw [validateField, if_neg hn, if_neg (by rw [ht]; simp)]
    rw [hr]
    simp only [hfind]
    rw [if_neg (by rintro ⟨a, b⟩; exact h1 a b), if_neg (by rintro ⟨a, b⟩; exact h2 a b),
        if_neg (by rintro ⟨a, b⟩; exact h3 a b), if_neg (by rintro ⟨a, b⟩; exact h4 a b),
        if_neg (by rintro ⟨a, b⟩; exact h5 a b), if_neg (by rintro ⟨a, b⟩; exact h6 a b),
        if_neg (by rintro ⟨a, b⟩; exact h7 a b), if_pos ht]
  refine ⟨hmain, ?_⟩
  rw [hmain]
  simp [normalizeField]

/-- Witness for C2 (amended) at a concrete `ByteBuffer` field carrying a
`required` rule. -/
theorem byteBuffer_clears_validation_witness :
    validateField "Product"
        { fieldName := some "image", fieldType := some "ByteBuffer",
          fieldValidateRules := some ["required"] } =
      ({ fieldName := some "image", fieldType := some "ByteBuffer",
         fieldValidateRules := some [], validation := some false },
       [Warning.lobValidationDisabled "Product"
          { fieldName := some "image", fieldType := some "ByteBuffer",
            fieldValidateRules := some ["required"] }], none) ∧
    (normalizeField {}
        (validateField "Product"
          { fieldName := some "image", fieldType := some "ByteBuffer",
            fieldValidateRules := some ["required"] }).1).1.fieldValidate = some false :=
  byteBuffer_clears_validation "Product"
    { fieldName := some "image", fieldType := some "ByteBuffer",
      fieldValidateRules := some ["required"] }
    ["required"] {} (by simp) rfl rfl (by decide)
    (by decide) (by decide) (by decide) (by decide) (by decide) (by decide) (by decide)

/-- C2 counterexample: a `byte[]` field carrying
`fieldValidateRules = ["required"]` is NOT cleared — validation passes
with no warning, the rules survive, and the derived `fieldValidate` is
`true` (the clearing of lines 369-377 tests only `ByteBuffer`). -/
theorem byteArray_keeps_validation :
    validateField "Product"
        { fieldName := some "image", fieldType := some "byte[]",
          fieldValidateRules := some ["required"] } =
      ({ fieldName := some "image", fieldType := some "byte[]",
         fieldValidateRules := some ["required"] }, [], none) ∧
    (normalizeField {}
        { fieldName := some "image", fieldType := some "byte[]",
          fieldValidateRules := some ["required"] }).1.fieldValidate = some true ∧
    (normalizeField {}
        { fieldName := some "image", fieldType := some "byte[]",
          fieldValidateRules := some ["required"] }).1.fieldValidateRules = some ["required"] := by
  refine ⟨?_, rfl, rfl⟩
  rfl

end JhipsterEntity


namespace JhipsterEntity

/-- Every fatal error raised by per-field validation names the owning
entity and carries the offending field (all messages of lines 316-368
embed the entity's file name and the stringified field). -/
theorem validateField_error_names (e : String) (f : Field) (err : SchemaErr)
    (h : (validateField e f).2.2 = some err) : err.entity = e ∧ err.fieldOf = some f := by
  rw [validateField] at h
  by_cases c1 : f.fieldName = none
  · rw [if_pos c1] at h
    injection h with h
    subst h
    exact ⟨rfl, rfl⟩
  rw [if_neg c1] at h
  by_cases c2 : f.fieldType = none
  · rw [if_pos c2] at h
    injection h with h
    subst h
    exact ⟨rfl, rfl⟩
  rw [if_neg c2] at h
  cases hrv : f.fieldValidateRules with
  | none =>
    rw [hrv] at h
    dsimp only at h
    exact absurd h (by simp)
  | some rules =>
    rw [hrv] at h
    dsimp only at h
    cases hfind : rules.find? (fun r => !(SUPPORTED_VALIDATION_RULES.contains r)) with
    | some bad =>
      rw [hfind] at h
      dsimp only at h
      injection h with h
      subst h
      exact ⟨rfl, rfl⟩
    | none =>
      rw [hfind] at h
      dsimp only at h
      by_cases d1 : rules.contains "max" = true ∧ f.fieldValidateRulesMax = none
      · rw [if_pos d1] at h
        injection h with h
        subst h
        exact ⟨rfl, rfl⟩
      rw [if_neg d1] at h
      by_cases d2 : rules.contains "min" = true ∧ f.fieldValidateRulesMin = none
      · rw [if_pos d2] at h
        injection h with h
        subst h
        exact ⟨rfl, rfl⟩
      rw [if_neg d2] at h
      by_cases d3 : rules.contains "maxlength" = true ∧ f.fieldValidateRulesMaxlength = none
      · rw [if_pos d3] at h
        injection h with h
        subst h
        exact ⟨rfl, rfl⟩
      rw [if_neg d3] at h
      by_cases d4 : rules.contains "minlength" = true ∧ f.fieldValidateRulesMinlength = none
      · rw [if_pos d4] at h
        injection h with h
        subst h
        exact ⟨rfl, rfl⟩
      rw [if_neg d4] at h
      by_cases d5 : rules.contains "maxbytes" = true ∧ f.fieldValidateRulesMaxbytes = none
      · rw [if_pos d5] at h
        injection h with h
        subst h
        exact ⟨rfl, rfl⟩
      rw [if_neg d5] at h
      by_cases d6 : rules.contains "minbytes" = true ∧ f.fieldValidateRulesMinbytes = none
      · rw [if_pos d6] at h
        injection h with h
        subst h
        exact ⟨rfl, rfl⟩
      rw [if_neg d6] at h
      by_cases d7 : rules.contains "pattern" = true ∧ f.fieldValidateRulesPattern = none
      · rw [if_pos d7] at h
        injection h with h
        subst h
        exact ⟨rfl, rfl⟩
      rw [if_neg d7] at h
      by_cases d8 : f.fieldType = some "ByteBuffer"
      · rw [if_pos d8] at h
        dsimp only at h
        exact absurd h (by simp)
      · rw [if_neg d8] at h
        dsimp only at h
        exact absurd h (by simp)

/-- When some companion-requiring rule is present with its companion
attribute absent, per-field validation raises a fatal error. -/
theorem validateField_isSome_of_companion (e : String) (f : Field) (rs : List String)
    (hr : f.fieldValidateRules = some rs)
    (hsome :
      (rs.contains "max" = true ∧ f.fieldValidateRulesMax = none) ∨
      (rs.contains "min" = true ∧ f.fieldValidateRulesMin = none) ∨
      (rs.contains "maxlength" = true ∧ f.fieldValidateRulesMaxlength = none) ∨
      (rs.contains "minlength" = true ∧ f.fieldValidateRulesMinlength = none) ∨
      (rs.contains "maxbytes" = true ∧ f.fieldValidateRulesMaxbytes = none) ∨
      (rs.contains "minbytes" = true ∧ f.fieldValidateRulesMinbytes = none) ∨
      (rs.contains "pattern" = true ∧ f.fieldValidateRulesPattern = none)) :
    (validateField e f).2.2.isSome = true := by
  rw [validateField]
  by_cases c1 : f.fieldName = none
  · rw [if_pos c1]; rfl
  rw [if_neg c1]
  by_cases c2 : f.fieldType = none
  · rw [if_pos c2]; rfl
  rw [if_neg c2]
  rw [hr]
  dsimp only
  cases hfind : rs.find? (fun r => !(SUPPORTED_VALIDATION_RULES.contains r)) with
  | some bad => rfl
  | none =>
    by_cases d1 : rs.contains "max" = true ∧ f.fieldValidateRulesMax = none
    · rw [if_pos d1]; rfl
    rw [if_neg d1]
    by_cases d2 : rs.contains "min" = true ∧ f.fieldValidateRulesMin = none
    · rw [if_pos d2]; rfl
    rw [if_neg d2]
    by_cases d3 : rs.contains "maxlength" = true ∧ f.fieldValidateRulesMaxlength = none
    · rw [if_pos d3]; rfl
    rw [if_neg d3]
    by_cases d4 : rs.contains "minlength" = true ∧ f.fieldValidateRulesMinlength = none
    · rw [if_pos d4]; rfl
    rw [if_neg d4]
    by_cases d5 : rs.contains "maxbytes" = true ∧ f.fieldValidateRulesMaxbytes = none
    · rw [if_pos d5]; rfl
    rw [if_neg d5]
    by_cases d6 : rs.contains "minbytes" = true ∧ f.fieldValidateRulesMinbytes = none
    · rw [if_pos d6]; rfl
    rw [if_neg d6]
    by_cases d7 : rs.contains "pattern" = true ∧ f.fieldValidateRulesPattern = none
    · rw [if_pos d7]; rfl
    rcases hsome with h | h | h | h | h | h | h
    · exact absurd h d1
    · exact absurd h d2
    · exact absurd h d3
    · exact absurd h d4
    · exact absurd h d5
    · exact absurd h d6
    · exact absurd h d7

end JhipsterEntity

namespace JhipsterEntity

/-- C6: For every field carrying a validation rule that requires a
companion parameter (`max`→`fieldValidateRulesMax`, `min`, `maxlength`,
`minlength`, `maxbytes`, `minbytes`, `pattern`), if the companion
attribute is absent, validation fails with a `SchemaError` that names
the entity and the field (validateFile, lines 325-368). -/
theorem companion_missing_fails (e : String) (f : Field) (rs : List String) (rule : String)
    (hr : f.fieldValidateRules = some rs)
    (hrule : rule ∈ companionRules)
    (hin : rs.contains rule = true)
    (habs : companionOf f rule = some none) :
    (validateField e f).2.2.isSome = true ∧
      ∀ err, (validateField e f).2.2 = some err → err.entity = e ∧ err.fieldOf = some f := by
  refine ⟨?_, fun err h => validateField_error_names e f err h⟩
  fin_cases hrule <;> simp only [companionOf, Option.some.injEq] at habs
  · exact validateField_isSome_of_companion e f rs hr (Or.inl ⟨hin, habs⟩)
  · exact validateField_isSome_of_companion e f rs hr (Or.inr (Or.inl ⟨hin, habs⟩))
  · exact validateField_isSome_of_companion e f rs hr (Or.inr (Or.inr (Or.inl ⟨hin, habs⟩)))
  · exact validateField_isSome_of_companion e f rs hr (Or.inr (Or.inr (Or.inr (Or.inl ⟨hin, habs⟩))))
  · exact validateField_isSome_of_companion e f rs hr
      (Or.inr (Or.inr (Or.inr (Or.inr (Or.inl ⟨hin, habs⟩)))))
  · exact validateField_isSome_of_companion e f rs hr
      (Or.inr (Or.inr (Or.inr (Or.inr (Or.inr (Or.inl ⟨hin, habs⟩))))))
  · exact validateField_isSome_of_companion e f rs hr
      (Or.inr (Or.inr (Or.inr (Or.inr (Or.inr (Or.inr ⟨hin, habs⟩))))))

/-- Witness for C6: a `BigDecimal` field with a `max` rule but no
`fieldValidateRulesMax`. -/
theorem companion_missing_fails_witness :
    (validateField "Invoice"
        { fieldName := some "total", fieldType := some "BigDecimal",
          fieldValidateRules := some ["max"] }).2.2.isSome = true ∧
      ∀ err, (validateField "Invoice"
          { fieldName := some "total", fieldType := some "BigDecimal",
            fieldValidateRules := some ["max"] }).2.2 = some err →
        err.entity = "Invoice" ∧
          err.fieldOf = some { fieldName := some "total", fieldType := some "BigDecimal",
                               fieldValidateRules := some ["max"] } :=
  companion_missing_fails "Invoice"
    { fieldName := some "total", fieldType := some "BigDecimal",
      fieldValidateRules := some ["max"] }
    ["max"] "max" rfl (by decide) (by decide) rfl

end JhipsterEntity

namespace JhipsterEntity

/-- C8 counterexample: the claim's own example fails on the code — table
name `GROUP` (reserved) with table-prefix `jhi` resolves to `jhi_GROUP`,
not `jhi_group`: line 1144 concatenates the prefix with the unaltered
name, preserving its case. -/
theorem reservedTableName_counterexample :
    validateTableName { jhiTablePref := "jhi" } "GROUP" =
      .valid "jhi_GROUP" [Warning.reservedTableNamePrefixed "GROUP"] ∧
    ("jhi_GROUP" : String) ≠ "jhi_group" := ⟨rfl, by decide⟩

/-- C8 (amended): for a well-formed, non-empty table name that is a
database-reserved word, validation never fails: with a table prefix
configured the resolved name is the prefix joined to the original name
by an underscore (case preserved), with one warning; with no prefix the
name is unchanged, with one warning (lines 1139-1149). -/
theorem reservedTableName_resolution (ctx : TableCtx) (t : String)
    (hchars : (t.data.all fun c => isUpperCh c || isLowerCh c || isDigitCh c || c = '_') = true)
    (hne : t ≠ "")
    (hres : isReservedTableName t ctx.prodDatabaseType = true) :
    validateTableName ctx t =
      if ctx.jhiTablePref ≠ "" then
        .valid (ctx.jhiTablePref ++ "_" ++ t) [Warning.reservedTableNamePrefixed t]
      else .valid t [Warning.reservedTableNameNoPref t] := by
  rw [validateTableName, if_neg (not_not_intro hchars), if_neg hne, if_pos hres]

/-- Witness for C8 (amended) at the claim's example input. -/
theorem reservedTableName_resolution_witness :
    validateTableName { jhiTablePref := "jhi" } "GROUP" =
      if ({ jhiTablePref := "jhi" } : TableCtx).jhiTablePref ≠ "" then
        TableNameResult.valid (({ jhiTablePref := "jhi" } : TableCtx).jhiTablePref ++ "_" ++ "GROUP")
          [Warning.reservedTableNamePrefixed "GROUP"]
      else TableNameResult.valid "GROUP" [Warning.reservedTableNameNoPref "GROUP"] :=
  reservedTableName_resolution { jhiTablePref := "jhi" } "GROUP" (by decide) (by decide) (by decide)

end JhipsterEntity

namespace JhipsterEntity

/-- `buildTypes` never disturbs the head of a non-empty seed list. -/
theorem buildTypes_head (rs : List Rel) (acc : List String) (h : acc ≠ []) :
    (buildTypes acc rs).head? = acc.head? := by
  induction rs generalizing acc with
  | nil => rfl
  | cons r rs ih =>
    rw [buildTypes]
    by_cases hc : acc.contains (relEntityType r)
    · rw [if_pos hc]
      exact ih acc h
    · rw [if_neg hc]
      rw [ih _ (by simp [h])]
      cases acc with
      | nil => exact absurd rfl h
      | cons a as => rfl

/-- `buildTypes` preserves duplicate-freedom of the seed list. -/
theorem buildTypes_nodup (rs : List Rel) (acc : List String) (h : acc.Nodup) :
    (buildTypes acc rs).Nodup := by
  induction rs generalizing acc with
  | nil => exact h
  | cons r rs ih =>
    rw [buildTypes]
    by_cases hc : acc.contains (relEntityType r)
    · rw [if_pos hc]
      exact ih acc h
    · rw [if_neg hc]
      refine ih _ ?_
      have hm : relEntityType r ∉ acc := by
        intro hmem
        exact hc (by simpa [List.contains, List.elem_iff] using hmem)
      simp [List.nodup_append, h, hm]

/-- `buildTypes` output is a sublist of the seed followed by the
encountered types in order (first-encounter order). -/
theorem buildTypes_sublist (rs : List Rel) (acc : List String) :
    (buildTypes acc rs).Sublist (acc ++ rs.map relEntityType) := by
  induction rs generalizing acc with
  | nil => simp [buildTypes]
  | cons r rs ih =>
    rw [buildTypes]
    by_cases hc : acc.contains (relEntityType r)
    · rw [if_pos hc]
      refine (ih acc).trans ?_
      simp only [List.map_cons]
      exact List.Sublist.append_left (List.sublist_cons_self _ _) acc
    · rw [if_neg hc]
      refine (ih _).trans ?_
      simp [List.append_assoc]

/-- Membership in `buildTypes`: the seed entries plus every encountered
type. -/
theorem buildTypes_mem (rs : List Rel) (acc : List String) (t : String) :
    t ∈ buildTypes acc rs ↔ t ∈ acc ∨ ∃ r ∈ rs, relEntityType r = t := by
  induction rs generalizing acc with
  | nil => simp [buildTypes]
  | cons r rs ih =>
    rw [buildTypes]
    by_cases hc : acc.contains (relEntityType r)
    · rw [if_pos hc, ih]
      have hm : relEntityType r ∈ acc := by simpa [List.contains, List.elem_iff] using hc
      constructor
      · rintro (h | ⟨x, hx, hfx⟩)
        · exact Or.inl h
        · exact Or.inr ⟨x, List.mem_cons_of_mem r hx, hfx⟩
      · rintro (h | ⟨x, hx, hfx⟩)
        · exact Or.inl h
        · rcases List.mem_cons.mp hx with hx | hx
          · subst hx
            exact Or.inl (hfx ▸ hm)
          · exact Or.inr ⟨x, hx, hfx⟩
    · rw [if_neg hc, ih]
      constructor
      · rintro (h | ⟨x, hx, hfx⟩)
        · rcases List.mem_append.mp h with h | h
          · exact Or.inl h
          · exact Or.inr ⟨r, List.mem_cons_self r rs, (List.mem_singleton.mp h).symm⟩
        · exact Or.inr ⟨x, List.mem_cons_of_mem r hx, hfx⟩
      · rintro (h | ⟨x, hx, hfx⟩)
        · exact Or.inl (List.mem_append.mpr (Or.inl h))
        · rcases List.mem_cons.mp hx with hx | hx
          · subst hx
            exact Or.inl (List.mem_append.mpr (Or.inr (by simp [hfx])))
          · exact Or.inr ⟨x, hx, hfx⟩

/-- Looking a key up after `addRel`: the matching bucket gains the
relationship at its end, all other buckets are untouched. -/
theorem addRel_lookup (m : List (String × List Rel)) (t : String) (r : Rel) (t' : String) :
    (addRel m t r).lookup t' =
      if t' = t then some (((m.lookup t').getD []) ++ [r]) else m.lookup t' := by
  induction m with
  | nil =>
    rw [addRel]
    by_cases h : t' = t
    · subst h
      simp [List.lookup]
    · have hb : (t' == t) = false := beq_eq_false_iff_ne.mpr h
      simp [List.lookup, h, hb]
  | cons kv m ih =>
    obtain ⟨k, v⟩ := kv
    rw [addRel]
    by_cases hk : k = t
    · rw [if_pos hk]
      subst hk
      by_cases ht : t' = k
      · subst ht
        simp [List.lookup]
      · have hb : (t' == k) = false := beq_eq_false_iff_ne.mpr ht
        simp [List.lookup, ht, hb]
    · rw [if_neg hk]
      by_cases ht : t' = k
      · subst ht
        have hne : ¬ t' = t := fun h => hk h
        simp [List.lookup, hne]
      · have hb : (t' == k) = false := beq_eq_false_iff_ne.mpr ht
        simp [List.lookup, hb, ih]

/-- Looking a key up in `buildRelMap`: its bucket lists exactly the
relationships of that type, in input order, with multiplicity. -/
theorem buildRelMap_lookup (rs : List Rel) (m : List (String × List Rel)) (t : String) :
    ((buildRelMap m rs).lookup t).getD [] =
      ((m.lookup t).getD []) ++ (rs.filter fun r => relEntityType r == t) := by
  induction rs generalizing m with
  | nil => simp [buildRelMap]
  | cons r rs ih =>
    rw [buildRelMap, ih, addRel_lookup]
    by_cases ht : t = relEntityType r
    · rw [if_pos ht]
      have hb : (relEntityType r == t) = true := by simp [ht]
      simp [List.filter_cons, hb]
    · rw [if_neg ht]
      have hb : (relEntityType r == t) = false := by
        simp only [beq_eq_false_iff_ne, ne_eq]
        exact fun h => ht h.symm
      simp [List.filter_cons, hb]

end JhipsterEntity

namespace JhipsterEntity

/-- The four structural invariants of the distinct-type list and the
per-type relationship map, over any seed class name and resolved
relationship list. -/
theorem typesInvariantsAux (ec : String) (rels : List Rel) :
    (buildTypes [ec] rels).head? = some ec ∧
    (buildTypes [ec] rels).Nodup ∧
    (buildTypes [ec] rels).Sublist (ec :: rels.map relEntityType) ∧
    (∀ t, t ∈ buildTypes [ec] rels ↔ (t = ec ∨ ∃ r ∈ rels, relEntityType r = t)) ∧
    (∀ t, ((buildRelMap [] rels).lookup t).getD [] =
      rels.filter fun r => relEntityType r == t) := by
  refine ⟨?_, ?_, ?_, ?_, ?_⟩
  · exact (buildTypes_head rels [ec] (by simp)).trans rfl
  · exact buildTypes_nodup rels [ec] (by simp)
  · exact buildTypes_sublist rels [ec]
  · intro t
    rw [buildTypes_mem]
    simp
  · intro t
    rw [buildRelMap_lookup]
    rfl

/-- C10: After descriptor assembly, for every entity document (including
one with zero relationships), `differentTypes` begins with the owning
entity's capitalized class name, holds every related-entity type exactly
once in first-encounter order (a duplicate-free sublist of the
encounter sequence, containing exactly the encountered types), and
`differentRelationships` maps each type to the relationships targeting
it in insertion order with multiplicity (lines 580-586, 949-956). -/
theorem descriptor_types_invariants (n : String) (nctx : NormCtx) (lctx : LoadCtx)
    (lookup : String → Option SiblingData) (d : EntityDoc) :
    ((assembleDescriptor n nctx lctx lookup d).1.differentTypes.head? =
        some (assembleDescriptor n nctx lctx lookup d).1.entityClass) ∧
    (assembleDescriptor n nctx lctx lookup d).1.differentTypes.Nodup ∧
    (assembleDescriptor n nctx lctx lookup d).1.differentTypes.Sublist
      ((assembleDescriptor n nctx lctx lookup d).1.entityClass ::
        (assembleDescriptor n nctx lctx lookup d).1.relationships.map relEntityType) ∧
    (∀ t, t ∈ (assembleDescriptor n nctx lctx lookup d).1.differentTypes ↔
      (t = (assembleDescriptor n nctx lctx lookup d).1.entityClass ∨
        ∃ r ∈ (assembleDescriptor n nctx lctx lookup d).1.relationships, relEntityType r = t)) ∧
    (∀ t, ((assembleDescriptor n nctx lctx lookup d).1.differentRelationships.lookup t).getD [] =
      (assembleDescriptor n nctx lctx lookup d).1.relationships.filter
        fun r => relEntityType r == t) :=
  typesInvariantsAux (upperFirst n)
    (d.relationships.map fun r => (loadRel n lctx lookup r).1)

end JhipsterEntity

namespace JhipsterEntity

/-- A relationship with no `otherEntityName` always fails validation
(lines 392-396; the check is unconditional and precedes every success
path). -/
theorem validateRel_error_of_missing (e : String) (r : Rel) (h : r.otherEntityName = none) :
    (validateRel e r).2.2.isSome = true := by
  by_cases hn : r.relationshipName = none
  · simp [validateRel, hn, h]
  · simp [validateRel, hn, h]

/-- The relationship walk fails whenever some relationship lacks
`otherEntityName`. -/
theorem validateRels_error_of_missing (e : String) (rs : List Rel) (r : Rel)
    (hmem : r ∈ rs) (h : r.otherEntityName = none) :
    (validateRels e rs).2.2.isSome = true := by
  induction rs with
  | nil => cases hmem
  | cons x xs ih =>
    simp only [validateRels]
    cases hx : (validateRel e x).2.2 with
    | some err => rfl
    | none =>
      rcases List.mem_cons.mp hmem with hcase | hmem2
      · have hx2 := validateRel_error_of_missing e x (hcase ▸ h)
        rw [hx] at hx2
        simp at hx2
      · simpa using ih hmem2

/-- Document validation fails whenever some relationship lacks
`otherEntityName` (regardless of whether an earlier field error fires
first). -/
theorem validateFile_error_of_missing (n cd : String) (d : EntityDoc) (r : Rel)
    (hmem : r ∈ d.relationships) (h : r.otherEntityName = none) :
    (validateFile n cd d).2.2.isSome = true := by
  cases hf : (validateFields n d.fields).2.2 with
  | some e0 => simp [validateFile, hf]
  | none =>
    have hrels := validateRels_error_of_missing n d.relationships r hmem h
    cases hr2 : (validateRels n d.relationships).2.2 with
    | some e1 => simp [validateFile, hf, hr2]
    | none =>
      rw [hr2] at hrels
      simp at hrels

/-- C3 (amended): a raw document containing a relationship without
`otherEntityName` fails resolution with a `SchemaError` and no
descriptor is produced (the configuring pass stops at `validateFile`,
before `loadInMemoryData`).  The in-place mutations applied before the
failure, however, persist — see the counterexample theorem. -/
theorem resolveDocument_no_descriptor (n cd : String) (nctx : NormCtx) (lctx : LoadCtx)
    (lookup : String → Option SiblingData) (d : EntityDoc) (r : Rel)
    (hmem : r ∈ d.relationships) (h : r.otherEntityName = none) :
    (resolveDocument n cd nctx lctx lookup d).1 = none ∧
      (validateFile n cd d).2.2.isSome = true := by
  have herr := validateFile_error_of_missing n cd d r hmem h
  refine ⟨?_, herr⟩
  cases hv : (validateFile n cd d).2.2 with
  | some e0 => simp [resolveDocument, hv]
  | none =>
    rw [hv] at herr
    simp at herr

/-- Witness for C3 (amended) at a one-relationship document. -/
theorem resolveDocument_no_descriptor_witness :
    (resolveDocument "Owner" "20200101000000" {} {} (fun _ => none)
        { relationships := [{ relationshipType := some "many-to-one" }] }).1 = none ∧
      (validateFile "Owner" "20200101000000"
        { relationships := [{ relationshipType := some "many-to-one" }] }).2.2.isSome = true :=
  resolveDocument_no_descriptor "Owner" "20200101000000" {} {} (fun _ => none)
    { relationships := [{ relationshipType := some "many-to-one" }] }
    { relationshipType := some "many-to-one" } (by decide) rfl

/-- C3 counterexample: the failing pass is not atomic with respect to
the input document — with two relationships, the first (valid) one
receives its fallback mutations before the second raises the fatal
error, so the document handed back on error differs from the input. -/
theorem validateFile_mutates_on_error :
    ((validateFile "Owner" "20200101000000"
        { relationships := [{ otherEntityName := some "car", relationshipType := some "many-to-one" },
                            { relationshipType := some "many-to-one" }] }).2.2.isSome = true) ∧
      (validateFile "Owner" "20200101000000"
        { relationships := [{ otherEntityName := some "car", relationshipType := some "many-to-one" },
                            { relationshipType := some "many-to-one" }] }).1 ≠
        { relationships := [{ otherEntityName := some "car", relationshipType := some "many-to-one" },
                            { relationshipType := some "many-to-one" }] } := by
  constructor
  · rfl
  · decide

end JhipsterEntity
namespace JhipsterEntity

theorem embeddedStage_fields (od : Option SiblingData) (r : Rel) :
    (embeddedStage od r).relationshipName = r.relationshipName ∧
    (embeddedStage od r).relationshipType = r.relationshipType ∧
    (embeddedStage od r).otherEntityName = r.otherEntityName ∧
    (embeddedStage od r).otherEntityRelationshipName = r.otherEntityRelationshipName ∧
    (embeddedStage od r).otherEntityRelationshipNamePlural = r.otherEntityRelationshipNamePlural ∧
    (embeddedStage od r).otherEntityRelationshipNameCapitalized =
      r.otherEntityRelationshipNameCapitalized ∧
    (embeddedStage od r).otherEntityRelationshipNameCapitalizedPlural =
      r.otherEntityRelationshipNameCapitalizedPlural := by
  cases od with
  | none => simp [embeddedStage]
  | some od =>
    by_cases h : od.embedded = some true <;> simp [embeddedStage, h]

theorem recipStage_match (A b a r : String) (od : SiblingData) (orel : Rel) (rel : Rel)
    (hrne : r ≠ "") (hrels : od.relationships = some [orel]) (ha : upperFirst a = A)
    (ho1 : orel.relationshipName = some r) (ho2 : orel.otherEntityName = some a)
    (ho3 : orel.otherEntityRelationshipName = some r)
    (ho4 : orel.relationshipType = some "one-to-many")
    (h1 : rel.relationshipName = some r) (h3 : rel.relationshipType = some "many-to-one") :
    recipStage A b (some od) rel =
      ({ rel with
          otherEntityRelationshipName := some (jsOrS rel.otherEntityRelationshipName r),
          otherEntityRelationshipNamePlural :=
            some (jsOrS rel.otherEntityRelationshipNamePlural (pluralize r)),
          otherEntityRelationshipNameCapitalized :=
            some (jsOrS rel.otherEntityRelationshipNameCapitalized (upperFirst r)),
          otherEntityRelationshipNameCapitalizedPlural :=
            some (pluralize (jsOrS rel.otherEntityRelationshipNameCapitalized (upperFirst r))) },
       []) := by
  rw [recipStage, hrels]
  dsimp only
  rw [if_pos (Or.inl h3)]
  simp only [List.foldl]
  simp [reciprocalStep, ha, ho1, ho2, ho3, ho4, h1, h3, jsFalsy, hrne]

end JhipsterEntity

namespace JhipsterEntity

theorem oernVariantsStage_id (r : Rel)
    (h0 : r.otherEntityRelationshipName ≠ none)
    (h1 : r.otherEntityRelationshipNamePlural ≠ none)
    (h2 : r.otherEntityRelationshipNameCapitalized ≠ none)
    (h3 : r.otherEntityRelationshipNameCapitalizedPlural ≠ none) :
    oernVariantsStage r = r := by
  obtain ⟨p, hp⟩ := Option.ne_none_iff_exists'.mp h1
  obtain ⟨c, hc⟩ := Option.ne_none_iff_exists'.mp h2
  obtain ⟨cp, hcp⟩ := Option.ne_none_iff_exists'.mp h3
  rw [oernVariantsStage, if_pos h0]
  conv_lhs => rw [hp, hc, hcp]
  simp only [Option.getD_some]
  rw [← hp, ← hc, ← hcp]

theorem relNameVariantsStage_fields (r : Rel) :
    (relNameVariantsStage r).otherEntityRelationshipName = r.otherEntityRelationshipName ∧
    (relNameVariantsStage r).otherEntityRelationshipNamePlural =
      r.otherEntityRelationshipNamePlural ∧
    (relNameVariantsStage r).otherEntityRelationshipNameCapitalized =
      r.otherEntityRelationshipNameCapitalized ∧
    (relNameVariantsStage r).otherEntityRelationshipNameCapitalizedPlural =
      r.otherEntityRelationshipNameCapitalizedPlural := by
  simp [relNameVariantsStage]

theorem otherTableStage_fields (jp pdt oen : String) (od : Option SiblingData) (r : Rel) :
    (otherTableStage jp pdt oen od r).otherEntityRelationshipName =
      r.otherEntityRelationshipName ∧
    (otherTableStage jp pdt oen od r).otherEntityRelationshipNamePlural =
      r.otherEntityRelationshipNamePlural ∧
    (otherTableStage jp pdt oen od r).otherEntityRelationshipNameCapitalized =
      r.otherEntityRelationshipNameCapitalized ∧
    (otherTableStage jp pdt oen od r).otherEntityRelationshipNameCapitalizedPlural =
      r.otherEntityRelationshipNameCapitalizedPlural := by
  by_cases h : oen = "user" <;> simp [otherTableStage, h]

theorem otherNameVariantsStage_fields (oen : String) (r : Rel) :
    (otherNameVariantsStage oen r).otherEntityRelationshipName =
      r.otherEntityRelationshipName ∧
    (otherNameVariantsStage oen r).otherEntityRelationshipNamePlural =
      r.otherEntityRelationshipNamePlural ∧
    (otherNameVariantsStage oen r).otherEntityRelationshipNameCapitalized =
      r.otherEntityRelationshipNameCapitalized ∧
    (otherNameVariantsStage oen r).otherEntityRelationshipNameCapitalizedPlural =
      r.otherEntityRelationshipNameCapitalizedPlural := by
  simp [otherNameVariantsStage]

/-- On a reciprocal-side match, the resolved relationship's four
reciprocal-name attributes equal the JavaScript-OR of their prior value
with the derivation from the sibling relationship's name — except the
capitalized-plural one, which is recomputed unconditionally from the
(possibly kept) capitalized value. -/
theorem loadRel_reciprocal_match (A b a r : String) (ctx : LoadCtx) (od : SiblingData)
    (orel : Rel) (lookup : String → Option SiblingData) (rel : Rel)
    (hrne : r ≠ "")
    (hlk : lookup b = some od) (hrels : od.relationships = some [orel])
    (hemb : od.embedded ≠ some true) (ha : upperFirst a = A)
    (ho1 : orel.relationshipName = some r) (ho2 : orel.otherEntityName = some a)
    (ho3 : orel.otherEntityRelationshipName = some r)
    (ho4 : orel.relationshipType = some "one-to-many")
    (h1 : rel.relationshipName = some r) (h2 : rel.otherEntityName = some b)
    (h3 : rel.relationshipType = some "many-to-one") :
    (loadRel A ctx lookup rel).1.otherEntityRelationshipName =
      some (jsOrS rel.otherEntityRelationshipName r) ∧
    (loadRel A ctx lookup rel).1.otherEntityRelationshipNamePlural =
      some (jsOrS rel.otherEntityRelationshipNamePlural (pluralize r)) ∧
    (loadRel A ctx lookup rel).1.otherEntityRelationshipNameCapitalized =
      some (jsOrS rel.otherEntityRelationshipNameCapitalized (upperFirst r)) ∧
    (loadRel A ctx lookup rel).1.otherEntityRelationshipNameCapitalizedPlural =
      some (pluralize (jsOrS rel.otherEntityRelationshipNameCapitalized (upperFirst r))) := by
  have hoen : rel.otherEntityName.getD "" = b := by rw [h2]; rfl
  have hembid : embeddedStage (some od) rel = rel := by
    rw [embeddedStage]
    exact if_neg hemb
  have hrecip := recipStage_match A b a r od orel rel hrne hrels ha ho1 ho2 ho3 ho4 h1 h3
  have hload : loadRel A ctx lookup rel =
      (otherNameVariantsStage b
        (otherTableStage (getTableNameModel ctx.jhiPref) ctx.prodDatabaseType b (some od)
          (relNameVariantsStage (oernVariantsStage (recipStage A b (some od) rel).1))),
       (recipStage A b (some od) rel).2 ++ dtoWarnings ctx.dto b (some od)) := by
    rw [loadRel, hoen, hlk, hembid]
  rw [hload]
  rw [hrecip]
  rw [oernVariantsStage_id _ (by simp) (by simp) (by simp) (by simp)]
  obtain ⟨a1, a2, a3, a4⟩ := relNameVariantsStage_fields
    ({ rel with
        otherEntityRelationshipName := some (jsOrS rel.otherEntityRelationshipName r),
        otherEntityRelationshipNamePlural :=
          some (jsOrS rel.otherEntityRelationshipNamePlural (pluralize r)),
        otherEntityRelationshipNameCapitalized :=
          some (jsOrS rel.otherEntityRelationshipNameCapitalized (upperFirst r)),
        otherEntityRelationshipNameCapitalizedPlural :=
          some (pluralize (jsOrS rel.otherEntityRelationshipNameCapitalized (upperFirst r))) })
  obtain ⟨b1, b2, b3, b4⟩ := otherTableStage_fields (getTableNameModel ctx.jhiPref)
    ctx.prodDatabaseType b (some od)
    (relNameVariantsStage
      { rel with
        otherEntityRelationshipName := some (jsOrS rel.otherEntityRelationshipName r),
        otherEntityRelationshipNamePlural :=
          some (jsOrS rel.otherEntityRelationshipNamePlural (pluralize r)),
        otherEntityRelationshipNameCapitalized :=
          some (jsOrS rel.otherEntityRelationshipNameCapitalized (upperFirst r)),
        otherEntityRelationshipNameCapitalizedPlural :=
          some (pluralize (jsOrS rel.otherEntityRelationshipNameCapitalized (upperFirst r))) })
  obtain ⟨c1, c2, c3, c4⟩ := otherNameVariantsStage_fields b
    (otherTableStage (getTableNameModel ctx.jhiPref) ctx.prodDatabaseType b (some od)
      (relNameVariantsStage
        { rel with
          otherEntityRelationshipName := some (jsOrS rel.otherEntityRelationshipName r),
          otherEntityRelationshipNamePlural :=
            some (jsOrS rel.otherEntityRelationshipNamePlural (pluralize r)),
          otherEntityRelationshipNameCapitalized :=
            some (jsOrS rel.otherEntityRelationshipNameCapitalized (upperFirst r)),
          otherEntityRelationshipNameCapitalizedPlural :=
            some (pluralize (jsOrS rel.otherEntityRelationshipNameCapitalized (upperFirst r))) }))
  refine ⟨?_, ?_, ?_, ?_⟩
  · rw [c1, b1, a1]
  · rw [c2, b2, a2]
  · rw [c3, b3, a3]
  · rw [c4, b4, a4]

end JhipsterEntity
namespace JhipsterEntity

/-- Under the C1 scenario preconditions, relationship validation
succeeds, fills `otherEntityRelationshipName` with the lowercased owning
entity name (lines 398-411), and leaves the name fields and the other
reciprocal-name variants untouched. -/
theorem validateRel_fallback (A : String) (rel : Rel)
    (h1 : rel.relationshipName ≠ none) (h2 : rel.otherEntityName ≠ none)
    (h3 : rel.relationshipType = some "many-to-one")
    (h4 : rel.otherEntityRelationshipName = none) :
    (validateRel A rel).2.2 = none ∧
    (validateRel A rel).1.otherEntityRelationshipName = some (lowerFirst A) ∧
    (validateRel A rel).1.relationshipName = rel.relationshipName ∧
    (validateRel A rel).1.otherEntityName = rel.otherEntityName ∧
    (validateRel A rel).1.relationshipType = rel.relationshipType ∧
    (validateRel A rel).1.otherEntityRelationshipNamePlural =
      rel.otherEntityRelationshipNamePlural ∧
    (validateRel A rel).1.otherEntityRelationshipNameCapitalized =
      rel.otherEntityRelationshipNameCapitalized ∧
    (validateRel A rel).1.otherEntityRelationshipNameCapitalizedPlural =
      rel.otherEntityRelationshipNameCapitalizedPlural := by
  simp only [validateRel, if_neg h1, if_neg h2]
  by_cases hf : rel.otherEntityField = none <;>
    simp [h1, h2, h3, h4, hf, apply_ite]

end JhipsterEntity
namespace JhipsterEntity

/-- C1 (amended): in the reciprocal scenario — `A` declares a
many-to-one relationship to `B` named `r`, `B` declares a one-to-many
relationship back named `r` whose `otherEntityRelationshipName` is `r` —
resolving `A` populates the pluralized/capitalized reciprocal variants
from `r` (`pluralize r`, `capitalize r`, `pluralize (capitalize r)`),
but `otherEntityRelationshipName` itself, when absent from the input, is
filled by the validator with `lowerFirst A` (lines 398-411) and the
match does not overwrite it (line 766), so it equals `r` only when
`r = lowerFirst A`. -/
theorem reciprocal_resolution_populates_variants
    (A r b a : String) (ctx : LoadCtx) (od : SiblingData) (orel : Rel)
    (lookup : String → Option SiblingData) (rel : Rel)
    (hAne : lowerFirst A ≠ "") (hrne : r ≠ "")
    (hlk : lookup b = some od) (hrels : od.relationships = some [orel])
    (hemb : od.embedded ≠ some true) (ha : upperFirst a = A)
    (ho1 : orel.relationshipName = some r) (ho2 : orel.otherEntityName = some a)
    (ho3 : orel.otherEntityRelationshipName = some r)
    (ho4 : orel.relationshipType = some "one-to-many")
    (h1 : rel.relationshipName = some r) (h2 : rel.otherEntityName = some b)
    (h3 : rel.relationshipType = some "many-to-one")
    (h4 : rel.otherEntityRelationshipName = none)
    (h5 : rel.otherEntityRelationshipNamePlural = none)
    (h6 : rel.otherEntityRelationshipNameCapitalized = none)
    (h7 : rel.otherEntityRelationshipNameCapitalizedPlural = none) :
    (validateRel A rel).2.2 = none ∧
    (loadRel A ctx lookup (validateRel A rel).1).1.otherEntityRelationshipName =
      some (lowerFirst A) ∧
    (loadRel A ctx lookup (validateRel A rel).1).1.otherEntityRelationshipNamePlural =
      some (pluralize r) ∧
    (loadRel A ctx lookup (validateRel A rel).1).1.otherEntityRelationshipNameCapitalized =
      some (upperFirst r) ∧
    (loadRel A ctx lookup (validateRel A rel).1).1.otherEntityRelationshipNameCapitalizedPlural =
      some (pluralize (upperFirst r)) := by
  obtain ⟨e0, e1, e2, e3, e4, e5, e6, e7⟩ :=
    validateRel_fallback A rel (by simp [h1]) (by simp [h2]) h3 h4
  obtain ⟨m1, m2, m3, m4⟩ :=
    loadRel_reciprocal_match A b a r ctx od orel lookup (validateRel A rel).1 hrne hlk hrels hemb
      ha ho1 ho2 ho3 ho4 (e2.trans h1) (e3.trans h2) (e4.trans h3)
  refine ⟨e0, ?_, ?_, ?_, ?_⟩
  · rw [m1, e1]
    simp [jsOrS, hAne]
  · rw [m2, e5.trans h5]
    rfl
  · rw [m3, e6.trans h6]
    rfl
  · rw [m4, e6.trans h6]
    rfl

/-- Witness for C1 (amended): `Owner` declares `cars : many-to-one → car`,
`car` declares `cars : one-to-many → owner` with
`otherEntityRelationshipName = "cars"`. -/
theorem reciprocal_resolution_populates_variants_witness :
    (validateRel "Owner"
        { relationshipName := some "cars", otherEntityName := some "car",
          relationshipType := some "many-to-one" }).2.2 = none ∧
    (loadRel "Owner" {}
        (fun n => if n = "car" then
          some { relationships := some [{ relationshipName := some "cars",
                                          otherEntityName := some "owner",
                                          relationshipType := some "one-to-many",
                                          otherEntityRelationshipName := some "cars" }] }
        else none)
        (validateRel "Owner"
          { relationshipName := some "cars", otherEntityName := some "car",
            relationshipType := some "many-to-one" }).1).1.otherEntityRelationshipName =
      some (lowerFirst "Owner") ∧
    (loadRel "Owner" {}
        (fun n => if n = "car" then
          some { relationships := some [{ relationshipName := some "cars",
                                          otherEntityName := some "owner",
                                          relationshipType := some "one-to-many",
                                          otherEntityRelationshipName := some "cars" }] }
        else none)
        (validateRel "Owner"
          { relationshipName := some "cars", otherEntityName := some "car",
            relationshipType := some "many-to-one" }).1).1.otherEntityRelationshipNamePlural =
      some (pluralize "cars") ∧
    (loadRel "Owner" {}
        (fun n => if n = "car" then
          some { relationships := some [{ relationshipName := some "cars",
                                          otherEntityName := some "owner",
                                          relationshipType := some "one-to-many",
                                          otherEntityRelationshipName := some "cars" }] }
        else none)
        (validateRel "Owner"
          { relationshipName := some "cars", otherEntityName := some "car",
            relationshipType := some "many-to-one" }).1).1.otherEntityRelationshipNameCapitalized =
      some (upperFirst "cars") ∧
    (loadRel "Owner" {}
        (fun n => if n = "car" then
          some { relationships := some [{ relationshipName := some "cars",
                                          otherEntityName := some "owner",
                                          relationshipType := some "one-to-many",
                                          otherEntityRelationshipName := some "cars" }] }
        else none)
        (validateRel "Owner"
          { relationshipName := some "cars", otherEntityName := some "car",
            relationshipType := some "many-to-one" }).1).1.otherEntityRelationshipNameCapitalizedPlural =
      some (pluralize (upperFirst "cars")) :=
  reciprocal_resolution_populates_variants "Owner" "cars" "car" "owner" {}
    { relationships := some [{ relationshipName := some "cars",
                               otherEntityName := some "owner",
                               relationshipType := some "one-to-many",
                               otherEntityRelationshipName := some "cars" }] }
    { relationshipName := some "cars", otherEntityName := some "owner",
      relationshipType := some "one-to-many", otherEntityRelationshipName := some "cars" }
    (fun n => if n = "car" then
      some { relationships := some [{ relationshipName := some "cars",
                                      otherEntityName := some "owner",
                                      relationshipType := some "one-to-many",
                                      otherEntityRelationshipName := some "cars" }] }
    else none)
    { relationshipName := some "cars", otherEntityName := some "car",
      relationshipType := some "many-to-one" }
    (by decide) (by decide) rfl rfl (by decide) (by decide)
    rfl rfl rfl rfl rfl rfl rfl rfl rfl rfl rfl

/-- C1 counterexample: in the reciprocal scenario with `A = "Owner"`,
`B = "car"` and `r = "cars"`, the resolved
`otherEntityRelationshipName` is `"owner"` (the validator's
`lowerFirst A` fallback), not `r = "cars"` — the claim's equality fails
at this input. -/
theorem reciprocal_name_counterexample :
    ((resolveDocument "Owner" "20200101000000" {} {}
        (fun n => if n = "car" then
          some { relationships := some [{ relationshipName := some "cars",
                                          otherEntityName := some "owner",
                                          relationshipType := some "one-to-many",
                                          otherEntityRelationshipName := some "cars" }] }
        else none)
        { relationships := [{ relationshipName := some "cars", otherEntityName := some "car",
                              relationshipType := some "many-to-one" }] }).1.map
      (fun desc => desc.relationships.map Rel.otherEntityRelationshipName)) = some [some "owner"] ∧
    (some "owner" : Option String) ≠ some "cars" := by
  constructor
  · rfl
  · decide

end JhipsterEntity
namespace JhipsterEntity

/-- C4 (amended): on a successful reciprocal-side match, the copied
`otherEntityRelationshipName`, `…NamePlural` and `…NameCapitalized`
attributes are assigned only when absent — values already present
survive — but `…NameCapitalizedPlural` is recomputed unconditionally as
`pluralize` of the (possibly kept) capitalized value (line 773's double
assignment), discarding any value already present. -/
theorem reciprocal_match_preserves_except_capitalized_plural
    (A r b a v1 v2 v3 : String) (ctx : LoadCtx) (od : SiblingData) (orel : Rel)
    (lookup : String → Option SiblingData) (rel : Rel)
    (hrne : r ≠ "")
    (hlk : lookup b = some od) (hrels : od.relationships = some [orel])
    (hemb : od.embedded ≠ some true) (ha : upperFirst a = A)
    (ho1 : orel.relationshipName = some r) (ho2 : orel.otherEntityName = some a)
    (ho3 : orel.otherEntityRelationshipName = some r)
    (ho4 : orel.relationshipType = some "one-to-many")
    (h1 : rel.relationshipName = some r) (h2 : rel.otherEntityName = some b)
    (h3 : rel.relationshipType = some "many-to-one")
    (hv1 : rel.otherEntityRelationshipName = some v1) (hv1n : v1 ≠ "")
    (hv2 : rel.otherEntityRelationshipNamePlural = some v2) (hv2n : v2 ≠ "")
    (hv3 : rel.otherEntityRelationshipNameCapitalized = some v3) (hv3n : v3 ≠ "") :
    (loadRel A ctx lookup rel).1.otherEntityRelationshipName = some v1 ∧
    (loadRel A ctx lookup rel).1.otherEntityRelationshipNamePlural = some v2 ∧
    (loadRel A ctx lookup rel).1.otherEntityRelationshipNameCapitalized = some v3 ∧
    (loadRel A ctx lookup rel).1.otherEntityRelationshipNameCapitalizedPlural =
      some (pluralize v3) := by
  obtain ⟨m1, m2, m3, m4⟩ :=
    loadRel_reciprocal_match A b a r ctx od orel lookup rel hrne hlk hrels hemb ha
      ho1 ho2 ho3 ho4 h1 h2 h3
  refine ⟨?_, ?_, ?_, ?_⟩
  · rw [m1, hv1]
    simp [jsOrS, hv1n]
  · rw [m2, hv2]
    simp [jsOrS, hv2n]
  · rw [m3, hv3]
    simp [jsOrS, hv3n]
  · rw [m4, hv3]
    simp [jsOrS, hv3n]

/-- Witness for C4 (amended): pre-resolved values `owner`/`owners`/`Owner`
survive the match; the capitalized-plural value becomes
`pluralize "Owner"`. -/
theorem reciprocal_match_preserves_witness :
    (loadRel "Owner" {}
        (fun n => if n = "car" then
          some { relationships := some [{ relationshipName := some "cars",
                                          otherEntityName := some "owner",
                                          relationshipType := some "one-to-many",
                                          otherEntityRelationshipName := some "cars" }] }
        else none)
        { relationshipName := some "cars", otherEntityName := some "car",
          relationshipType := some "many-to-one",
          otherEntityRelationshipName := some "owner",
          otherEntityRelationshipNamePlural := some "owners",
          otherEntityRelationshipNameCapitalized := some "Owner",
          otherEntityRelationshipNameCapitalizedPlural := some "OwnerList" }).1.otherEntityRelationshipName =
      some "owner" ∧
    (loadRel "Owner" {}
        (fun n => if n = "car" then
          some { relationships := some [{ relationshipName := some "cars",
                                          otherEntityName := some "owner",
                                          relationshipType := some "one-to-many",
                                          otherEntityRelationshipName := some "cars" }] }
        else none)
        { relationshipName := some "cars", otherEntityName := some "car",
          relationshipType := some "many-to-one",
          otherEntityRelationshipName := some "owner",
          otherEntityRelationshipNamePlural := some "owners",
          otherEntityRelationshipNameCapitalized := some "Owner",
          otherEntityRelationshipNameCapitalizedPlural := some "OwnerList" }).1.otherEntityRelationshipNamePlural =
      some "owners" ∧
    (loadRel "Owner" {}
        (fun n => if n = "car" then
          some { relationships := some [{ relationshipName := some "cars",
                                          otherEntityName := some "owner",
                                          relationshipType := some "one-to-many",
                                          otherEntityRelationshipName := some "cars" }] }
        else none)
        { relationshipName := some "cars", otherEntityName := some "car",
          relationshipType := some "many-to-one",
          otherEntityRelationshipName := some "owner",
          otherEntityRelationshipNamePlural := some "owners",
          otherEntityRelationshipNameCapitalized := some "Owner",
          otherEntityRelationshipNameCapitalizedPlural := some "OwnerList" }).1.otherEntityRelationshipNameCapitalized =
      some "Owner" ∧
    (loadRel "Owner" {}
        (fun n => if n = "car" then
          some { relationships := some [{ relationshipName := some "cars",
                                          otherEntityName := some "owner",
                                          relationshipType := some "one-to-many",
                                          otherEntityRelationshipName := some "cars" }] }
        else none)
        { relationshipName := some "cars", otherEntityName := some "car",
          relationshipType := some "many-to-one",
          otherEntityRelationshipName := some "owner",
          otherEntityRelationshipNamePlural := some "owners",
          otherEntityRelationshipNameCapitalized := some "Owner",
          otherEntityRelationshipNameCapitalizedPlural := some "OwnerList" }).1.otherEntityRelationshipNameCapitalizedPlural =
      some (pluralize "Owner") :=
  reciprocal_match_preserves_except_capitalized_plural "Owner" "cars" "car" "owner"
    "owner" "owners" "Owner" {}
    { relationships := some [{ relationshipName := some "cars",
                               otherEntityName := some "owner",
                               relationshipType := some "one-to-many",
                               otherEntityRelationshipName := some "cars" }] }
    { relationshipName := some "cars", otherEntityName := some "owner",
      relationshipType := some "one-to-many", otherEntityRelationshipName := some "cars" }
    (fun n => if n = "car" then
      some { relationships := some [{ relationshipName := some "cars",
                                      otherEntityName := some "owner",
                                      relationshipType := some "one-to-many",
                                      otherEntityRelationshipName := some "cars" }] }
    else none)
    { relationshipName := some "cars", otherEntityName := some "car",
      relationshipType := some "many-to-one",
      otherEntityRelationshipName := some "owner",
      otherEntityRelationshipNamePlural := some "owners",
      otherEntityRelationshipNameCapitalized := some "Owner",
      otherEntityRelationshipNameCapitalizedPlural := some "OwnerList" }
    (by decide) rfl rfl (by decide) (by decide)
    rfl rfl rfl rfl rfl rfl rfl rfl (by decide) rfl (by decide) rfl (by decide)

/-- C4 counterexample: a relationship entering the match with
`otherEntityRelationshipNameCapitalizedPlural = some "OwnerList"` leaves
resolution with `some "Owners"` — the already-present value is
overwritten (line 773), refuting "any value already present on the
relationship before the match is never overwritten". -/
theorem reciprocal_overwrite_counterexample :
    (loadRel "Owner" {}
        (fun n => if n = "car" then
          some { relationships := some [{ relationshipName := some "cars",
                                          otherEntityName := some "owner",
                                          relationshipType := some "one-to-many",
                                          otherEntityRelationshipName := some "cars" }] }
        else none)
        { relationshipName := some "cars", otherEntityName := some "car",
          relationshipType := some "many-to-one",
          otherEntityRelationshipName := some "owner",
          otherEntityRelationshipNamePlural := some "owners",
          otherEntityRelationshipNameCapitalized := some "Owner",
          otherEntityRelationshipNameCapitalizedPlural := some "OwnerList" }).1.otherEntityRelationshipNameCapitalizedPlural =
      some "Owners" ∧
    (some "Owners" : Option String) ≠ some "OwnerList" := by
  constructor
  · rfl
  · decide

end JhipsterEntity
